import Mathlib

/-!
# Verification of the collab2 escrow / collaboration / dispute / review engine

Shallow embedding of the Express backend (`server.js`).  Collections of the
Mongo database are modelled as lists of records, monetary values as rationals,
timestamps as rational milliseconds, and the JS `Math.round`-based 2-decimal
rounding as `jsRound2`.  Each HTTP handler becomes a pure function
`DB → Except ApiErr (result × DB)`; the JS falsy-coalescing idiom `x || y`
is modelled by `jsOrNum` / `jsOrStr` (`0`, `""`, `null`, `undefined` falsy).
-/

namespace Collab2

/-- JS `Math.round`: round half towards positive infinity, `Math.round x = ⌊x + 1/2⌋`. -/
def jsRound (x : ℚ) : ℤ := Int.floor (x + 1/2)

/-- JS `Math.round (x * 100) / 100`: round to 2 decimals. -/
def jsRound2 (x : ℚ) : ℚ := (jsRound (x * 100) : ℚ) / 100

/-- JS `Math.round (x * 10) / 10`: round to 1 decimal. -/
def jsRound1 (x : ℚ) : ℚ := (jsRound (x * 10) : ℚ) / 10

/-- JS `x || y` for a possibly-missing number: `undefined`, `null` and `0` are falsy. -/
def jsOrNum (x : Option ℚ) (y : ℚ) : ℚ :=
  match x with
  | none => y
  | some v => if v = 0 then y else v

/-- JS `x || y` for a number that is always present: `0` is falsy. -/
def jsOrNum0 (x : ℚ) (y : ℚ) : ℚ := if x = 0 then y else x

/-- JS `x || y` for strings: `""` is falsy. -/
def jsOrStr (x : String) (y : String) : String := if x = "" then y else x

/-- JS `x || y` for a possibly-missing string. -/
def jsOrStrOpt (x : Option String) (y : String) : String :=
  match x with
  | none => y
  | some v => if v = "" then y else v

/-- Mongo `updateOne`: apply `f` to the first element satisfying `p`. -/
def updateFirst (p : α → Bool) (f : α → α) : List α → List α
  | [] => []
  | x :: xs => if p x then f x :: xs else x :: updateFirst p f xs

/-- `DEFAULT_COMMISSION_RATE = 10.0` from `server.js`. -/
def defaultCommissionRate : ℚ := 10

/-! ## Data model (Mongo documents) -/

structure User where
  user_id : Nat
  user_type : String := "influencer"
  is_pro : Bool := false
  is_admin : Bool := false
  deriving DecidableEq, Repr

structure Collab where
  collab_id : Nat
  brand_user_id : Nat
  title : String := ""
  budget_min : Option ℚ := none
  budget_max : Option ℚ := none
  status : String
  payment_status : String
  collaboration_type : String := "paid"
  applicants_count : Nat := 0
  views : Nat := 0
  is_public : Bool := true
  created_at : ℚ := 0
  escrow_id : Option Nat := none
  completed_at : Option ℚ := none
  release_scheduled_at : Option ℚ := none
  cancelled_at : Option ℚ := none
  cancelled_by : Option Nat := none
  cancellation_reason : Option String := none
  disputed_at : Option ℚ := none
  released_at : Option ℚ := none
  deriving DecidableEq, Repr

structure Escrow where
  escrow_id : Nat
  collab_id : Nat
  brand_user_id : Nat
  total_amount : ℚ
  influencer_payout : ℚ
  platform_commission : ℚ
  commission_rate : ℚ
  payment_status : String := "pending"
  status : String
  payment_reference : Option Nat := none
  created_at : ℚ := 0
  secured_at : Option ℚ := none
  completed_at : Option ℚ := none
  release_scheduled_at : Option ℚ := none
  released_at : Option ℚ := none
  refunded_at : Option ℚ := none
  disputed_at : Option ℚ := none
  resolved_at : Option ℚ := none
  split_influencer : Option ℚ := none
  split_brand : Option ℚ := none
  partial_refund_amount : Option ℚ := none
  deriving DecidableEq, Repr

structure Application where
  application_id : Nat
  collab_id : Nat
  influencer_user_id : Nat
  proposed_price : Option ℚ := none
  status : String := "pending"
  created_at : ℚ := 0
  deriving DecidableEq, Repr

structure Dispute where
  dispute_id : Nat
  collab_id : Nat
  opened_by : Nat
  opener_type : String
  reason : String := ""
  details : String := ""
  status : String := "open"
  brand_user_id : Nat
  influencer_user_id : Option Nat := none
  resolution : Option String := none
  admin_notes : Option String := none
  split_influencer : Option ℚ := none
  split_brand : Option ℚ := none
  created_at : ℚ := 0
  resolved_at : Option ℚ := none
  deriving DecidableEq, Repr

structure Cancellation where
  cancellation_id : Nat
  collab_id : Nat
  requested_by : Nat
  requester_type : String
  reason : String := ""
  details : String := ""
  status : String
  resolution : Option String := none
  admin_notes : Option String := none
  partial_amount : Option ℚ := none
  created_at : ℚ := 0
  resolved_at : Option ℚ := none
  deriving DecidableEq, Repr

structure Message where
  message_id : Nat
  collab_id : Nat
  sender_id : Nat
  sender_type : String := ""
  content : String := ""
  thread_locked : Bool := false
  created_at : ℚ := 0
  deriving DecidableEq, Repr

structure Review where
  review_id : Nat
  application_id : Nat
  collab_id : Nat
  reviewer_user_id : Nat
  reviewer_type : String
  reviewed_user_id : Nat
  rating : ℚ
  comment : Option String := none
  is_revealed : Bool := false
  created_at : ℚ := 0
  deriving DecidableEq, Repr

structure Commission where
  commission_id : Nat
  collab_id : Nat
  application_id : Nat
  brand_user_id : Nat
  influencer_user_id : Nat
  gross_amount : ℚ
  commission_rate : ℚ
  commission_amount : ℚ
  net_amount : ℚ
  status : String := "completed"
  created_at : ℚ := 0
  deriving DecidableEq, Repr

structure InfluencerProfile where
  user_id : Nat
  username : String := ""
  avg_rating : Option ℚ := none
  review_count : Option Nat := none
  previous_collaborations : List String := []
  deriving DecidableEq, Repr

/-- The whole Mongo database plus the id generator. -/
structure DB where
  users : List User := []
  collaborations : List Collab := []
  escrow_payments : List Escrow := []
  applications : List Application := []
  disputes : List Dispute := []
  cancellations : List Cancellation := []
  messages : List Message := []
  reviews : List Review := []
  commissions : List Commission := []
  influencer_profiles : List InfluencerProfile := []
  commission_rate_setting : Option ℚ := none
  nextId : Nat := 0
  deriving DecidableEq, Repr

/-- HTTP-level failure results of the handlers. -/
inductive ApiErr where
  | unauthorized (detail : String)
  | forbidden (detail : String)
  | notFound (detail : String)
  | badRequest (detail : String)
  | internal (detail : String)
  deriving DecidableEq, Repr

deriving instance DecidableEq for Except

/-- `getCommissionRate()`: current rate from the settings store, default 10. -/
def getCommissionRate (db : DB) : ℚ :=
  match db.commission_rate_setting with
  | some v => v
  | none => defaultCommissionRate

/-- `requireAuth`: resolve the acting user. -/
def findUser (db : DB) (uid : Nat) : Option User :=
  db.users.find? (fun u => u.user_id == uid)

/-! ## Handlers

Each handler returns `Except ApiErr (result × DB)`; `t` is `Date.now()` in
milliseconds.  Fresh Mongo ids (`genId`) come from the `nextId` counter. -/

/-- `POST /auth/register` (state-changing part).  `isAdmin` models membership
of the configured `ADMIN_EMAILS` list; emails and password hashes are not
modelled. -/
def registerUser (_t : ℚ) (userType : String) (isAdmin : Bool) (db : DB) :
    Except ApiErr (User × DB) :=
  let userDoc : User := { user_id := db.nextId, user_type := userType,
                          is_pro := false, is_admin := isAdmin }
  .ok (userDoc, { db with users := db.users ++ [userDoc], nextId := db.nextId + 1 })

/-- `POST /influencers/profile`: upsert the influencer profile, set
`user_type` to `influencer`. -/
def createInfluencerProfile (uid : Nat) (username : String) (db : DB) :
    Except ApiErr (Unit × DB) :=
  match findUser db uid with
  | none => .error (.unauthorized "Not authenticated")
  | some user =>
    let retype := updateFirst (fun u => u.user_id == user.user_id)
        (fun u => { u with user_type := "influencer" }) db.users
    match db.influencer_profiles.find? (fun p => p.user_id == user.user_id) with
    | some _ =>
      let profiles := updateFirst (fun p => p.user_id == user.user_id)
        (fun p => { p with username := username, previous_collaborations := [] })
        db.influencer_profiles
      .ok ((), { db with users := retype, influencer_profiles := profiles })
    | none =>
      match db.influencer_profiles.find? (fun p => p.username == username) with
      | some _ => .error (.badRequest "Username already taken")
      | none =>
        let profiles := db.influencer_profiles ++
          [{ user_id := user.user_id, username := username }]
        .ok ((), { db with users := retype, influencer_profiles := profiles })

/-- Request body of `POST /collaborations`. -/
structure CollabCreate where
  title : String := ""
  budget_min : Option ℚ := none
  budget_max : Option ℚ := none
  collaboration_type : Option String := none
  is_public : Bool := true
  deriving DecidableEq, Repr

/-- `POST /collaborations`. -/
def createCollaboration (t : ℚ) (uid : Nat) (data : CollabCreate) (db : DB) :
    Except ApiErr (Collab × DB) :=
  match findUser db uid with
  | none => .error (.unauthorized "Not authenticated")
  | some user =>
    if user.is_pro = false ∧ 3 ≤ (db.collaborations.filter
        (fun c => c.brand_user_id == user.user_id && c.status == "active")).length then
      .error (.forbidden "Free users limited to 3 active collaborations. Upgrade to PRO!")
    else
      let is_paid := data.collaboration_type == some "paid"
      let collabDoc : Collab := {
        collab_id := db.nextId, brand_user_id := user.user_id, title := data.title,
        budget_min := data.budget_min,
        budget_max := match data.budget_max with
                      | none => none
                      | some v => if v = 0 then none else some v,
        status := "active", applicants_count := 0, views := 0, created_at := t,
        is_public := data.is_public,
        collaboration_type := jsOrStrOpt data.collaboration_type "paid",
        payment_status := if is_paid then "awaiting_escrow" else "none" }
      .ok (collabDoc, { db with collaborations := db.collaborations ++ [collabDoc],
                                nextId := db.nextId + 1 })

/-- `GET /collaborations/:collab_id`: increments the view counter. -/
def viewCollaboration (collabId : Nat) (db : DB) : Except ApiErr (Unit × DB) :=
  match db.collaborations.find? (fun c => c.collab_id == collabId) with
  | none => .error (.notFound "Collaboration not found")
  | some _ =>
    let collabs := updateFirst (fun c => c.collab_id == collabId)
      (fun c => { c with views := c.views + 1 }) db.collaborations
    .ok ((), { db with collaborations := collabs })

/-- Request body of `PUT /collaborations/:collab_id` (`$set req.body`):
only keys present in the body are written. -/
structure CollabPatch where
  title : Option String := none
  budget_min : Option (Option ℚ) := none
  budget_max : Option (Option ℚ) := none
  status : Option String := none
  payment_status : Option String := none
  collaboration_type : Option String := none
  deriving DecidableEq, Repr

def applyCollabPatch (p : CollabPatch) (c : Collab) : Collab :=
  { c with
    title := p.title.getD c.title,
    budget_min := p.budget_min.getD c.budget_min,
    budget_max := p.budget_max.getD c.budget_max,
    status := p.status.getD c.status,
    payment_status := p.payment_status.getD c.payment_status,
    collaboration_type := p.collaboration_type.getD c.collaboration_type }

/-- `PUT /collaborations/:collab_id`: unvalidated `$set` of the request body. -/
def updateCollaboration (uid collabId : Nat) (body : CollabPatch) (db : DB) :
    Except ApiErr (Unit × DB) :=
  match findUser db uid with
  | none => .error (.unauthorized "Not authenticated")
  | some user =>
    match db.collaborations.find? (fun c => c.collab_id == collabId) with
    | none => .error (.notFound "Collaboration not found")
    | some collab =>
      if collab.brand_user_id ≠ user.user_id then .error (.forbidden "Not authorized")
      else
        let collabs := updateFirst (fun c => c.collab_id == collabId)
          (applyCollabPatch body) db.collaborations
        .ok ((), { db with collaborations := collabs })

/-- `PATCH /collaborations/:collab_id/status`. -/
def updateCollaborationStatus (t : ℚ) (uid collabId : Nat) (newStatus : String)
    (db : DB) : Except ApiErr (Unit × DB) :=
  match findUser db uid with
  | none => .error (.unauthorized "Not authenticated")
  | some user =>
    match db.collaborations.find? (fun c => c.collab_id == collabId) with
    | none => .error (.notFound "Collaboration not found")
    | some collab =>
      if collab.brand_user_id ≠ user.user_id then .error (.forbidden "Not authorized")
      else
        let is_paid := jsOrStr collab.collaboration_type "paid" = "paid"
        if newStatus = "completed" ∧ is_paid then
          match db.escrow_payments.find?
              (fun e => e.collab_id == collabId && e.status == "secured") with
          | none => .error (.badRequest "Fondurile trebuie securizate înainte de finalizare")
          | some escrow =>
            let release_at := t + 48 * 60 * 60 * 1000
            .ok ((), { db with
              collaborations := updateFirst (fun c => c.collab_id == collabId)
                (fun c => { c with
                  status := "completed_pending_release",
                  payment_status := "completed_pending_release",
                  completed_at := some t, release_scheduled_at := some release_at })
                db.collaborations,
              escrow_payments := updateFirst (fun e => e.escrow_id == escrow.escrow_id)
                (fun e => { e with
                  status := "completed_pending_release",
                  completed_at := some t, release_scheduled_at := some release_at })
                db.escrow_payments })
        else if newStatus = "completed" ∧ ¬ is_paid then
          .ok ((), { db with
            collaborations := updateFirst (fun c => c.collab_id == collabId)
              (fun c => { c with
                status := "completed", payment_status := "none",
                completed_at := some t }) db.collaborations })
        else
          .ok ((), { db with
            collaborations := updateFirst (fun c => c.collab_id == collabId)
              (fun c => { c with status := newStatus }) db.collaborations })

/-- Is `uid` an influencer with an accepted application on the collab? -/
def isAcceptedInfluencer (db : DB) (collabId uid : Nat) : Bool :=
  (db.applications.find? (fun a => a.collab_id == collabId &&
      a.influencer_user_id == uid && a.status == "accepted")).isSome

/-- `POST /collaborations/:collab_id/cancel`. -/
def cancelCollaboration (t : ℚ) (uid collabId : Nat) (reason details : String)
    (db : DB) : Except ApiErr (Unit × DB) :=
  match findUser db uid with
  | none => .error (.unauthorized "Not authenticated")
  | some user =>
    match db.collaborations.find? (fun c => c.collab_id == collabId) with
    | none => .error (.notFound "Collaboration not found")
    | some collab =>
      let is_brand := collab.brand_user_id == user.user_id
      let is_influencer := !is_brand && isAcceptedInfluencer db collabId user.user_id
      if !is_brand && !is_influencer then .error (.forbidden "Not authorized")
      else if collab.status = "completed_pending_release" ∨ collab.status = "completed" ∨
              collab.status = "disputed" ∨ collab.status = "cancelled" then
        .error (.badRequest "Anularea nu mai este posibilă în această etapă. Folosiți sistemul de dispute.")
      else
        let pay := jsOrStr collab.payment_status "none"
        if collab.status = "active" ∧ (pay = "secured" ∨ pay = "awaiting_escrow" ∨ pay = "none") then
          let db1 := { db with
            collaborations := updateFirst (fun c => c.collab_id == collabId)
              (fun c => { c with
                status := "cancelled",
                payment_status := if collab.payment_status = "secured" then "refunded" else "none",
                cancelled_at := some t, cancelled_by := some user.user_id,
                cancellation_reason := some reason }) db.collaborations,
            escrow_payments :=
              if collab.payment_status = "secured" then
                updateFirst (fun e => e.collab_id == collabId && e.status == "secured")
                  (fun e => { e with status := "refunded", refunded_at := some t })
                  db.escrow_payments
              else db.escrow_payments }
          .ok ((), { db1 with
            cancellations := db1.cancellations ++ [{
              cancellation_id := db.nextId, collab_id := collabId,
              requested_by := user.user_id,
              requester_type := if is_brand then "brand" else "influencer",
              reason := reason, details := details, status := "completed",
              resolution := some (if collab.payment_status = "secured"
                                  then "full_refund" else "no_payment"),
              created_at := t, resolved_at := some t }],
            nextId := db.nextId + 1 })
        else if collab.status = "in_progress" then
          let requesterType := if is_brand then "brand" else "influencer"
          let cancelStatus := "cancellation_requested_by_" ++ requesterType
          .ok ((), { db with
            collaborations := updateFirst (fun c => c.collab_id == collabId)
              (fun c => { c with status := cancelStatus }) db.collaborations,
            cancellations := db.cancellations ++ [{
              cancellation_id := db.nextId, collab_id := collabId,
              requested_by := user.user_id, requester_type := requesterType,
              reason := reason, details := details,
              status := "pending_admin_review", created_at := t }],
            nextId := db.nextId + 1 })
        else .error (.badRequest "Anularea nu este posibilă în starea curentă")

/-- `PATCH /admin/cancellations/:cancellation_id/resolve`. -/
def resolveCancellation (t : ℚ) (uid cancellationId : Nat) (resolution : String)
    (adminNotes : String) (partialAmount : ℚ) (db : DB) :
    Except ApiErr (Unit × DB) :=
  match findUser db uid with
  | none => .error (.unauthorized "Not authenticated")
  | some user =>
    if user.is_admin = false then .error (.forbidden "Admin access required")
    else
      match db.cancellations.find? (fun c => c.cancellation_id == cancellationId) with
      | none => .error (.notFound "Cancellation not found")
      | some cancellation =>
        if cancellation.status ≠ "pending_admin_review" then
          .error (.badRequest "Already resolved")
        else
          let cid := cancellation.collab_id
          let db1 :=
            if resolution = "full_refund" then
              { db with
                collaborations := updateFirst (fun c => c.collab_id == cid)
                  (fun c => { c with
                              status := "cancelled", payment_status := "refunded",
                              cancelled_at := some t }) db.collaborations,
                escrow_payments := updateFirst (fun e => e.collab_id == cid &&
                    (e.status == "secured" || e.status == "completed_pending_release"))
                  (fun e => { e with status := "refunded", refunded_at := some t })
                  db.escrow_payments }
            else if resolution = "partial_refund" then
              let db' := { db with
                collaborations := updateFirst (fun c => c.collab_id == cid)
                  (fun c => { c with
                              status := "cancelled",
                              payment_status := "partial_refund",
                              cancelled_at := some t }) db.collaborations }
              match db.escrow_payments.find? (fun e => e.collab_id == cid &&
                  (e.status == "secured" || e.status == "completed_pending_release")) with
              | some escrow =>
                { db' with
                  escrow_payments := updateFirst
                    (fun e => e.escrow_id == escrow.escrow_id)
                    (fun e => { e with
                      status := "partial_refund",
                      partial_refund_amount := some partialAmount,
                      refunded_at := some t }) db'.escrow_payments }
              | none => db'
            else if resolution = "continue" then
              { db with
                collaborations := updateFirst (fun c => c.collab_id == cid)
                  (fun c => { c with status := "in_progress" }) db.collaborations }
            else db
          .ok ((), { db1 with
            cancellations := updateFirst (fun c => c.cancellation_id == cancellationId)
              (fun c => { c with
                status := "resolved", resolution := some resolution,
                admin_notes := some adminNotes,
                partial_amount := if resolution = "partial_refund"
                                  then some partialAmount else none,
                resolved_at := some t }) db1.cancellations })

/-- `POST /disputes/create/:collab_id`. -/
def createDispute (t : ℚ) (uid collabId : Nat) (reason details : String)
    (db : DB) : Except ApiErr (Dispute × DB) :=
  match findUser db uid with
  | none => .error (.unauthorized "Not authenticated")
  | some user =>
    match db.collaborations.find? (fun c => c.collab_id == collabId) with
    | none => .error (.notFound "Collaboration not found")
    | some collab =>
      if collab.status ≠ "completed_pending_release" then
        .error (.badRequest "Disputele sunt posibile doar în faza de verificare a livrării (completed_pending_release)")
      else
        let is_brand := collab.brand_user_id == user.user_id
        let is_influencer := !is_brand && isAcceptedInfluencer db collabId user.user_id
        if !is_brand && !is_influencer then .error (.forbidden "Not authorized")
        else
          match db.disputes.find? (fun d => d.collab_id == collabId &&
              (d.status == "open" || d.status == "under_review")) with
          | some _ => .error (.badRequest "O dispută este deja deschisă pentru această colaborare")
          | none =>
            let infApp := db.applications.find?
              (fun a => a.collab_id == collabId && a.status == "accepted")
            let disputeDoc : Dispute := {
              dispute_id := db.nextId, collab_id := collabId, opened_by := user.user_id,
              opener_type := if is_brand then "brand" else "influencer",
              reason := reason, details := details, status := "open", created_at := t,
              brand_user_id := collab.brand_user_id,
              influencer_user_id := infApp.map (·.influencer_user_id) }
            .ok (disputeDoc, { db with
              disputes := db.disputes ++ [disputeDoc],
              collaborations := updateFirst (fun c => c.collab_id == collabId)
                (fun c => { c with
                            status := "disputed", payment_status := "disputed",
                            disputed_at := some t }) db.collaborations,
              escrow_payments := updateFirst (fun e => e.collab_id == collabId &&
                  e.status == "completed_pending_release")
                (fun e => { e with status := "disputed", disputed_at := some t })
                db.escrow_payments,
              messages := db.messages.map (fun m =>
                if m.collab_id == collabId then { m with thread_locked := true } else m),
              nextId := db.nextId + 1 })

/-- `PATCH /admin/disputes/:dispute_id/resolve`. -/
def resolveDispute (t : ℚ) (uid disputeId : Nat) (resolution : String)
    (adminNotes : String) (splitInfluencer splitBrand : ℚ) (db : DB) :
    Except ApiErr (Unit × DB) :=
  match findUser db uid with
  | none => .error (.unauthorized "Not authenticated")
  | some user =>
    if user.is_admin = false then .error (.forbidden "Admin access required")
    else
      match db.disputes.find? (fun d => d.dispute_id == disputeId) with
      | none => .error (.notFound "Dispute not found")
      | some dispute =>
        if dispute.status = "resolved" then .error (.badRequest "Dispute already resolved")
        else
          let cid := dispute.collab_id
          let escrow? := db.escrow_payments.find?
            (fun e => e.collab_id == cid && e.status == "disputed")
          let db1 :=
            if resolution = "release_to_influencer" then
              let db' :=
                match escrow? with
                | some escrow =>
                  let rate := jsOrNum0 escrow.commission_rate (getCommissionRate db)
                  let apps : List Application := db.applications.filter
                    (fun a => a.collab_id == cid && a.status == "accepted")
                  let newComms : List Commission := apps.enum.map
                    (fun ((k, a) : Nat × Application) =>
                    let proposed := jsOrNum a.proposed_price (jsOrNum0 escrow.total_amount 0)
                    let commission := jsRound2 (proposed * rate / 100)
                    ({ commission_id := db.nextId + k, collab_id := cid,
                       application_id := a.application_id,
                       brand_user_id := escrow.brand_user_id,
                       influencer_user_id := a.influencer_user_id,
                       gross_amount := proposed, commission_rate := rate,
                       commission_amount := commission,
                       net_amount := jsRound2 (proposed - commission),
                       status := "completed", created_at := t } : Commission))
                  { db with
                    commissions := db.commissions ++ newComms,
                    nextId := db.nextId + apps.length,
                    escrow_payments := updateFirst
                      (fun e => e.escrow_id == escrow.escrow_id)
                      (fun e => { e with status := "released", released_at := some t })
                      db.escrow_payments }
                | none => db
              { db' with
                collaborations := updateFirst (fun c => c.collab_id == cid)
                  (fun c => { c with
                    status := "completed", payment_status := "released",
                    released_at := some t }) db'.collaborations }
            else if resolution = "refund_to_brand" then
              let db' :=
                match escrow? with
                | some escrow =>
                  { db with
                    escrow_payments := updateFirst
                      (fun e => e.escrow_id == escrow.escrow_id)
                      (fun e => { e with status := "refunded", refunded_at := some t })
                      db.escrow_payments }
                | none => db
              { db' with
                collaborations := updateFirst (fun c => c.collab_id == cid)
                  (fun c => { c with
                    status := "cancelled", payment_status := "refunded",
                    cancelled_at := some t }) db'.collaborations }
            else if resolution = "split" then
              let db' :=
                match escrow? with
                | some escrow =>
                  { db with
                    escrow_payments := updateFirst
                      (fun e => e.escrow_id == escrow.escrow_id)
                      (fun e => { e with
                        status := "split_resolved",
                        split_influencer := some splitInfluencer,
                        split_brand := some splitBrand, resolved_at := some t })
                      db.escrow_payments }
                | none => db
              { db' with
                collaborations := updateFirst (fun c => c.collab_id == cid)
                  (fun c => { c with
                    status := "completed",
                    payment_status := "split_resolved" }) db'.collaborations }
            else db
          .ok ((), { db1 with
            disputes := updateFirst (fun d => d.dispute_id == disputeId)
              (fun d => { d with
                status := "resolved", resolution := some resolution,
                admin_notes := some adminNotes,
                split_influencer := if resolution = "split" then some splitInfluencer else none,
                split_brand := if resolution = "split" then some splitBrand else none,
                resolved_at := some t }) db1.disputes })

/-- `POST /escrow/create/:collab_id`. -/
def createEscrow (t : ℚ) (uid collabId : Nat) (db : DB) :
    Except ApiErr (Escrow × DB) :=
  match findUser db uid with
  | none => .error (.unauthorized "Not authenticated")
  | some user =>
    match db.collaborations.find? (fun c => c.collab_id == collabId) with
    | none => .error (.notFound "Collaboration not found")
    | some collab =>
      if collab.brand_user_id ≠ user.user_id then .error (.forbidden "Not authorized")
      else if jsOrStr collab.collaboration_type "paid" ≠ "paid" then
        .error (.badRequest "Escrow only for paid collaborations")
      else
        match db.escrow_payments.find? (fun e => e.collab_id == collabId &&
            (e.status == "pending" || e.status == "secured")) with
        | some _ => .error (.badRequest "Escrow already exists for this collaboration")
        | none =>
          let rate := getCommissionRate db
          let budget := jsOrNum collab.budget_max (jsOrNum collab.budget_min 0)
          let commission := jsRound2 (budget * rate / 100)
          let influencer_payout := jsRound2 (budget - commission)
          let escrowDoc : Escrow := {
            escrow_id := db.nextId, collab_id := collabId,
            brand_user_id := user.user_id, total_amount := budget,
            influencer_payout := influencer_payout, platform_commission := commission,
            commission_rate := rate, payment_status := "pending", status := "pending",
            payment_reference := none, created_at := t }
          .ok (escrowDoc, { db with
            escrow_payments := db.escrow_payments ++ [escrowDoc],
            nextId := db.nextId + 1 })

/-- `POST /escrow/:escrow_id/secure` (mock payment provider). -/
def secureEscrow (t : ℚ) (uid escrowId : Nat) (db : DB) :
    Except ApiErr (Unit × DB) :=
  match findUser db uid with
  | none => .error (.unauthorized "Not authenticated")
  | some user =>
    match db.escrow_payments.find? (fun e => e.escrow_id == escrowId) with
    | none => .error (.notFound "Escrow not found")
    | some escrow =>
      if escrow.brand_user_id ≠ user.user_id then .error (.forbidden "Not authorized")
      else if escrow.status ≠ "pending" then
        .error (.badRequest "Escrow is not in pending state")
      else
        .ok ((), { db with
          escrow_payments := updateFirst (fun e => e.escrow_id == escrowId)
            (fun e => { e with
                        status := "secured", payment_reference := some db.nextId,
                        secured_at := some t }) db.escrow_payments,
          collaborations := updateFirst (fun c => c.collab_id == escrow.collab_id)
            (fun c => { c with payment_status := "secured", escrow_id := some escrowId })
            db.collaborations,
          nextId := db.nextId + 1 })

/-- `POST /escrow/:escrow_id/release`. -/
def releaseEscrow (t : ℚ) (uid escrowId : Nat) (db : DB) :
    Except ApiErr (Unit × DB) :=
  match findUser db uid with
  | none => .error (.unauthorized "Not authenticated")
  | some user =>
    match db.escrow_payments.find? (fun e => e.escrow_id == escrowId) with
    | none => .error (.notFound "Escrow not found")
    | some escrow =>
      if escrow.brand_user_id ≠ user.user_id ∧ user.is_admin = false then
        .error (.forbidden "Not authorized")
      else if escrow.status ≠ "completed_pending_release" then
        .error (.badRequest "Escrow not in release-ready state")
      else
        let rate := jsOrNum0 escrow.commission_rate (getCommissionRate db)
        let apps := db.applications.filter
          (fun a => a.collab_id == escrow.collab_id && a.status == "accepted")
        let newComms := apps.enum.map (fun (k, a) =>
          let proposed := jsOrNum a.proposed_price (jsOrNum0 escrow.total_amount 0)
          let commission := jsRound2 (proposed * rate / 100)
          ({ commission_id := db.nextId + k, collab_id := escrow.collab_id,
             application_id := a.application_id, brand_user_id := escrow.brand_user_id,
             influencer_user_id := a.influencer_user_id, gross_amount := proposed,
             commission_rate := rate, commission_amount := commission,
             net_amount := jsRound2 (proposed - commission), status := "completed",
             created_at := t } : Commission))
        .ok ((), { db with
          commissions := db.commissions ++ newComms,
          escrow_payments := updateFirst (fun e => e.escrow_id == escrowId)
            (fun e => { e with status := "released", released_at := some t })
            db.escrow_payments,
          collaborations := updateFirst (fun c => c.collab_id == escrow.collab_id)
            (fun c => { c with
                        status := "completed", payment_status := "released",
                        released_at := some t }) db.collaborations,
          nextId := db.nextId + apps.length })

/-- `POST /escrow/:escrow_id/refund`. -/
def refundEscrow (t : ℚ) (uid escrowId : Nat) (db : DB) :
    Except ApiErr (Unit × DB) :=
  match findUser db uid with
  | none => .error (.unauthorized "Not authenticated")
  | some user =>
    match db.escrow_payments.find? (fun e => e.escrow_id == escrowId) with
    | none => .error (.notFound "Escrow not found")
    | some escrow =>
      if escrow.brand_user_id ≠ user.user_id ∧ user.is_admin = false then
        .error (.forbidden "Not authorized")
      else if escrow.status ≠ "secured" ∧ escrow.status ≠ "completed_pending_release" then
        .error (.badRequest "Cannot refund in current state")
      else
        .ok ((), { db with
          escrow_payments := updateFirst (fun e => e.escrow_id == escrowId)
            (fun e => { e with status := "refunded", refunded_at := some t })
            db.escrow_payments,
          collaborations := updateFirst (fun c => c.collab_id == escrow.collab_id)
            (fun c => { c with payment_status := "refunded" }) db.collaborations })

/-- `POST /messages/:collab_id`. -/
def sendMessage (t : ℚ) (uid collabId : Nat) (content : String) (db : DB) :
    Except ApiErr (Message × DB) :=
  match findUser db uid with
  | none => .error (.unauthorized "Not authenticated")
  | some user =>
    if content.trim = "" then .error (.badRequest "Message cannot be empty")
    else if 2000 < content.trim.length then
      .error (.badRequest "Mesajul nu poate depăși 2000 de caractere")
    else
      match db.collaborations.find? (fun c => c.collab_id == collabId) with
      | none => .error (.notFound "Collaboration not found")
      | some collab =>
        if collab.status = "disputed" then
          .error (.badRequest "Mesajele sunt blocate pe durata disputei")
        else
          let is_brand := collab.brand_user_id == user.user_id
          let is_influencer := !is_brand && isAcceptedInfluencer db collabId user.user_id
          if !is_brand && !is_influencer then .error (.forbidden "Not authorized")
          else if ¬ (collab.status = "active" ∨ collab.status = "in_progress" ∨
              collab.status = "completed_pending_release" ∨ collab.status = "completed" ∨
              collab.status = "cancellation_requested_by_brand" ∨
              collab.status = "cancellation_requested_by_influencer") then
            .error (.badRequest "Mesajele nu sunt disponibile în această etapă")
          else
            match db.applications.find?
                (fun a => a.collab_id == collabId && a.status == "accepted") with
            | none => .error (.badRequest "Mesajele sunt disponibile doar după acceptarea unei aplicații")
            | some _ =>
              let msgDoc : Message := {
                message_id := db.nextId, collab_id := collabId, sender_id := user.user_id,
                sender_type := if is_brand then "brand" else "influencer",
                content := content.trim, created_at := t, thread_locked := false }
              .ok (msgDoc, { db with
                             messages := db.messages ++ [msgDoc],
                             nextId := db.nextId + 1 })

/-- `POST /applications`. -/
def createApplication (t : ℚ) (uid collabId : Nat) (proposedPrice : Option ℚ)
    (db : DB) : Except ApiErr (Application × DB) :=
  match findUser db uid with
  | none => .error (.unauthorized "Not authenticated")
  | some user =>
    match db.influencer_profiles.find? (fun p => p.user_id == user.user_id) with
    | none => .error (.badRequest "Please complete your influencer profile first")
    | some _ =>
      match db.applications.find? (fun a => a.collab_id == collabId &&
          a.influencer_user_id == user.user_id) with
      | some _ => .error (.badRequest "Already applied to this collaboration")
      | none =>
        match db.collaborations.find? (fun c => c.collab_id == collabId) with
        | none => .error (.badRequest "Collaboration not available")
        | some collab =>
          if collab.status ≠ "active" then .error (.badRequest "Collaboration not available")
          else
            let appDoc : Application := {
              application_id := db.nextId, collab_id := collabId,
              influencer_user_id := user.user_id,
              proposed_price := match proposedPrice with
                                | none => none
                                | some v => if v = 0 then none else some v,
              status := "pending", created_at := t }
            .ok (appDoc, { db with
              applications := db.applications ++ [appDoc],
              collaborations := updateFirst (fun c => c.collab_id == collabId)
                (fun c => { c with applicants_count := c.applicants_count + 1 })
                db.collaborations,
              nextId := db.nextId + 1 })

/-- `PATCH /applications/:application_id/status`.  When the collaboration
does not exist the JS handler throws (`collab.brand_user_id` on `null`) and
the catch-all returns 500. -/
def updateApplicationStatus (uid applicationId : Nat) (newStatus : String)
    (db : DB) : Except ApiErr (Unit × DB) :=
  match findUser db uid with
  | none => .error (.unauthorized "Not authenticated")
  | some user =>
    match db.applications.find? (fun a => a.application_id == applicationId) with
    | none => .error (.notFound "Application not found")
    | some application =>
      match db.collaborations.find? (fun c => c.collab_id == application.collab_id) with
      | none => .error (.internal "Cannot read properties of null")
      | some collab =>
        if collab.brand_user_id ≠ user.user_id then .error (.forbidden "Not authorized")
        else
          let db1 := { db with
            applications := updateFirst (fun a => a.application_id == applicationId)
              (fun a => { a with status := newStatus }) db.applications }
          if newStatus = "accepted" then
            .ok ((), { db1 with
              influencer_profiles := updateFirst
                (fun p => p.user_id == application.influencer_user_id)
                (fun p => { p with
                  previous_collaborations :=
                    p.previous_collaborations ++ [collab.title] })
                db1.influencer_profiles })
          else .ok ((), db1)

/-- `updateInfluencerRating`: mean of revealed brand reviews, 1-decimal. -/
def updateInfluencerRating (userId : Nat) (db : DB) : DB :=
  let matched := db.reviews.filter (fun r => r.reviewed_user_id == userId &&
    r.reviewer_type == "brand" && r.is_revealed)
  if matched.length ≠ 0 then
    let avg := (matched.map (·.rating)).sum / (matched.length : ℚ)
    { db with
      influencer_profiles := updateFirst (fun p => p.user_id == userId)
        (fun p => { p with
          avg_rating := some (jsRound1 avg),
          review_count := some matched.length }) db.influencer_profiles }
  else db

/-- `REVIEW_REVEAL_TIMEOUT_DAYS = 14`. -/
def reviewRevealTimeoutDays : ℚ := 14

/-- `autoRevealTimedOutReviews`: reveal reviews older than 14 days and
recompute ratings of the affected influencers. -/
def autoRevealTimedOutReviews (t : ℚ) (db : DB) : DB :=
  let cutoff := t - reviewRevealTimeoutDays * 24 * 60 * 60 * 1000
  let unrevealed := db.reviews.filter
    (fun r => !r.is_revealed && decide (r.created_at < cutoff))
  if unrevealed.length ≠ 0 then
    let ids := unrevealed.map (·.review_id)
    let db1 := { db with reviews := db.reviews.map (fun r =>
      if ids.contains r.review_id then { r with is_revealed := true } else r) }
    let affected := ((unrevealed.filter (fun r => r.reviewer_type == "brand")).map
      (·.reviewed_user_id)).dedup
    affected.foldl (fun acc u => updateInfluencerRating u acc) db1
  else db

/-- `POST /reviews`. -/
def submitReview (t : ℚ) (uid applicationId : Nat) (rating : ℚ)
    (comment : Option String) (db : DB) : Except ApiErr (Review × DB) :=
  match findUser db uid with
  | none => .error (.unauthorized "Not authenticated")
  | some user =>
    if rating = 0 ∨ rating < 1 ∨ 5 < rating then
      .error (.badRequest "Rating must be between 1 and 5")
    else
      match db.applications.find? (fun a => a.application_id == applicationId) with
      | none => .error (.notFound "Application not found")
      | some application =>
        if application.status ≠ "accepted" then
          .error (.badRequest "Can only review accepted collaborations")
        else
          match db.collaborations.find?
              (fun c => c.collab_id == application.collab_id) with
          | none => .error (.notFound "Collaboration not found")
          | some collab =>
            let is_paid := jsOrStr collab.collaboration_type "paid" = "paid"
            if is_paid ∧ collab.payment_status ≠ "released" then
              .error (.badRequest "Recenziile sunt disponibile doar după eliberarea fondurilor")
            else if ¬ is_paid ∧ ¬ (collab.status = "completed" ∨
                collab.status = "completed_pending_release") then
              .error (.badRequest "Colaborarea trebuie finalizată înainte de recenzie")
            else
              let is_brand := collab.brand_user_id == user.user_id
              let is_influencer := application.influencer_user_id == user.user_id
              if !is_brand && !is_influencer then
                .error (.forbidden "Not authorized to review this collaboration")
              else
                match db.reviews.find? (fun r => r.application_id == applicationId &&
                    r.reviewer_user_id == user.user_id) with
                | some _ => .error (.badRequest "Already reviewed this collaboration")
                | none =>
                  let reviewDoc : Review := {
                    review_id := db.nextId, application_id := applicationId,
                    collab_id := collab.collab_id, reviewer_user_id := user.user_id,
                    reviewer_type := if is_brand then "brand" else "influencer",
                    reviewed_user_id := if is_brand then application.influencer_user_id
                                        else collab.brand_user_id,
                    rating := rating, comment := comment, is_revealed := false,
                    created_at := t }
                  let db1 := { db with
                    reviews := db.reviews ++ [reviewDoc],
                    nextId := db.nextId + 1 }
                  match db1.reviews.find? (fun r => r.application_id == applicationId &&
                      r.reviewer_user_id != user.user_id) with
                  | some _ =>
                    let db2 := { db1 with
                      reviews := db1.reviews.map (fun r =>
                        if r.application_id == applicationId
                        then { r with is_revealed := true } else r) }
                    .ok (reviewDoc, updateInfluencerRating application.influencer_user_id db2)
                  | none => .ok (reviewDoc, db1)

/-- `GET /reviews/user/:user_id` (state-changing part): the lazy
auto-reveal sweep runs on every read. -/
def readUserReviews (t : ℚ) (db : DB) : Except ApiErr (Unit × DB) :=
  .ok ((), autoRevealTimedOutReviews t db)

/-- `PUT /settings/commission`. -/
def updateCommissionSetting (_t : ℚ) (uid : Nat) (rate : Option ℚ) (db : DB) :
    Except ApiErr (Unit × DB) :=
  match findUser db uid with
  | none => .error (.unauthorized "Not authenticated")
  | some user =>
    if user.is_admin = false then .error (.forbidden "Admin access required")
    else
      match rate with
      | none => .error (.badRequest "Commission rate must be between 0 and 100")
      | some r =>
        if r < 0 ∨ 100 < r then
          .error (.badRequest "Commission rate must be between 0 and 100")
        else .ok ((), { db with commission_rate_setting := some r })

/-- Response of `GET /commission/calculate`. -/
structure CommissionCalc where
  gross_amount : ℚ
  commission_rate : ℚ
  commission_amount : ℚ
  net_amount : ℚ
  deriving DecidableEq, Repr

/-- `GET /commission/calculate?amount=...` (read-only). -/
def calculateCommission (uid : Nat) (amount : ℚ) (db : DB) :
    Except ApiErr CommissionCalc :=
  match findUser db uid with
  | none => .error (.unauthorized "Not authenticated")
  | some _ =>
    let rate := getCommissionRate db
    let commission := jsRound2 (amount * rate / 100)
    .ok { gross_amount := amount, commission_rate := rate,
          commission_amount := commission,
          net_amount := jsRound2 (amount - commission) }

/-! ## The transition system

An `Op` is one invocation of a state-changing endpoint with arbitrary
arguments; `step` applies it (a failing handler, which writes nothing,
leaves the database unchanged).  `Reachable` is the set of databases the
running system can be in, starting from the empty database. -/

inductive Op where
  | register (t : ℚ) (userType : String) (isAdmin : Bool)
  | infProfile (uid : Nat) (username : String)
  | newCollab (t : ℚ) (uid : Nat) (data : CollabCreate)
  | view (collabId : Nat)
  | putCollab (uid collabId : Nat) (body : CollabPatch)
  | patchStatus (t : ℚ) (uid collabId : Nat) (newStatus : String)
  | cancel (t : ℚ) (uid collabId : Nat) (reason details : String)
  | adminCancellation (t : ℚ) (uid cancellationId : Nat)
      (resolution adminNotes : String) (partialAmount : ℚ)
  | newDispute (t : ℚ) (uid collabId : Nat) (reason details : String)
  | adminDispute (t : ℚ) (uid disputeId : Nat) (resolution adminNotes : String)
      (splitInfluencer splitBrand : ℚ)
  | newEscrow (t : ℚ) (uid collabId : Nat)
  | secure (t : ℚ) (uid escrowId : Nat)
  | release (t : ℚ) (uid escrowId : Nat)
  | refund (t : ℚ) (uid escrowId : Nat)
  | message (t : ℚ) (uid collabId : Nat) (content : String)
  | newApplication (t : ℚ) (uid collabId : Nat) (proposedPrice : Option ℚ)
  | patchApplication (uid applicationId : Nat) (newStatus : String)
  | review (t : ℚ) (uid applicationId : Nat) (rating : ℚ) (comment : Option String)
  | readReviews (t : ℚ)
  | putRate (t : ℚ) (uid : Nat) (rate : Option ℚ)
  deriving DecidableEq, Repr

/-- Keep the new database of a successful call, the old one of a failed call. -/
def stepOf (db : DB) : Except ApiErr (α × DB) → DB
  | .ok (_, db') => db'
  | .error _ => db

/-- One request against the running system. -/
def step (op : Op) (db : DB) : DB :=
  match op with
  | .register t ut ia => stepOf db (registerUser t ut ia db)
  | .infProfile uid un => stepOf db (createInfluencerProfile uid un db)
  | .newCollab t uid data => stepOf db (createCollaboration t uid data db)
  | .view cid => stepOf db (viewCollaboration cid db)
  | .putCollab uid cid body => stepOf db (updateCollaboration uid cid body db)
  | .patchStatus t uid cid ns => stepOf db (updateCollaborationStatus t uid cid ns db)
  | .cancel t uid cid r d => stepOf db (cancelCollaboration t uid cid r d db)
  | .adminCancellation t uid cid r n p => stepOf db (resolveCancellation t uid cid r n p db)
  | .newDispute t uid cid r d => stepOf db (createDispute t uid cid r d db)
  | .adminDispute t uid did r n si sb => stepOf db (resolveDispute t uid did r n si sb db)
  | .newEscrow t uid cid => stepOf db (createEscrow t uid cid db)
  | .secure t uid eid => stepOf db (secureEscrow t uid eid db)
  | .release t uid eid => stepOf db (releaseEscrow t uid eid db)
  | .refund t uid eid => stepOf db (refundEscrow t uid eid db)
  | .message t uid cid c => stepOf db (sendMessage t uid cid c db)
  | .newApplication t uid cid p => stepOf db (createApplication t uid cid p db)
  | .patchApplication uid aid ns => stepOf db (updateApplicationStatus uid aid ns db)
  | .review t uid aid r c => stepOf db (submitReview t uid aid r c db)
  | .readReviews t => stepOf db (readUserReviews t db)
  | .putRate t uid r => stepOf db (updateCommissionSetting t uid r db)

/-- The empty initial database. -/
def DB.init : DB := {}

/-- Run a list of requests in order. -/
def execOps (ops : List Op) (db : DB) : DB := ops.foldl (fun acc op => step op acc) db

/-- States of the running system. -/
inductive Reachable : DB → Prop where
  | init : Reachable DB.init
  | next {db : DB} (h : Reachable db) (op : Op) : Reachable (step op db)

theorem Reachable.execOps {db : DB} (h : Reachable db) (ops : List Op) :
    Reachable (Collab2.execOps ops db) := by
  induction ops generalizing db with
  | nil => exact h
  | cons op ops ih => exact ih (h.next op)

/-! ## Rounding arithmetic -/

theorem abs_jsRound_sub_le (x : ℚ) : |(jsRound x : ℚ) - x| ≤ 1/2 := by
  unfold jsRound
  have h1 := Int.floor_le (x + 1/2)
  have h2 := Int.lt_floor_add_one (x + 1/2)
  rw [abs_le]
  constructor <;> push_cast at h1 h2 ⊢ <;> linarith

theorem abs_jsRound2_sub_le (x : ℚ) : |jsRound2 x - x| ≤ 1/200 := by
  unfold jsRound2
  have h := abs_jsRound_sub_le (x * 100)
  rw [abs_le] at h ⊢
  obtain ⟨h1, h2⟩ := h
  constructor <;> linarith

/-- The two rounded figures reconstruct the gross amount to within `0.01`. -/
theorem commission_add_net_close (amount c : ℚ) :
    |c + jsRound2 (amount - c) - amount| ≤ 1/100 := by
  have h := abs_jsRound2_sub_le (amount - c)
  rw [abs_le] at h ⊢
  obtain ⟨h1, h2⟩ := h
  constructor <;> linarith

/-! ## List lemmas for the Mongo `updateOne` / `findOne` semantics -/

theorem updateFirst_of_find?_none {p : α → Bool} {l : List α} (f : α → α)
    (h : l.find? p = none) : updateFirst p f l = l := by
  induction l with
  | nil => rfl
  | cons x xs ih =>
    by_cases hx : p x = true
    · rw [List.find?_cons_of_pos _ hx] at h; exact absurd h (by simp)
    · rw [List.find?_cons_of_neg _ hx] at h
      unfold updateFirst
      rw [if_neg hx, ih h]

theorem find?_decomp {p : α → Bool} {l : List α} {a : α} (h : l.find? p = some a) :
    ∃ l1 l2, l = l1 ++ a :: l2 ∧ (∀ x ∈ l1, ¬ p x = true) ∧
      ∀ f : α → α, updateFirst p f l = l1 ++ f a :: l2 := by
  induction l with
  | nil => simp at h
  | cons x xs ih =>
    by_cases hx : p x = true
    · rw [List.find?_cons_of_pos _ hx] at h
      obtain rfl : x = a := by simpa using h
      exact ⟨[], xs, rfl, by simp, fun f => by unfold updateFirst; rw [if_pos hx]; rfl⟩
    · rw [List.find?_cons_of_neg _ hx] at h
      obtain ⟨l1, l2, hsplit, hl1, hupd⟩ := ih h
      refine ⟨x :: l1, l2, by rw [hsplit]; rfl, ?_, fun f => ?_⟩
      · intro y hy
        rcases List.mem_cons.mp hy with rfl | hy'
        · exact hx
        · exact hl1 y hy'
      · unfold updateFirst
        rw [if_neg hx, hupd]
        rfl

theorem find?_append_left_none {p : α → Bool} {l1 : List α} (l2 : List α)
    (h : ∀ x ∈ l1, ¬ p x = true) :
    (l1 ++ l2).find? p = l2.find? p := by
  induction l1 with
  | nil => rfl
  | cons x xs ih =>
    rw [List.cons_append, List.find?_cons_of_neg _ (h x (by simp))]
    exact ih (fun y hy => h y (by simp [hy]))

theorem find?_updateFirst_same {p : α → Bool} {l : List α} {a : α} (f : α → α)
    (h : l.find? p = some a) (hf : p (f a) = true) :
    (updateFirst p f l).find? p = some (f a) := by
  obtain ⟨l1, l2, _, hl1, hupd⟩ := find?_decomp h
  rw [hupd f, find?_append_left_none _ hl1, List.find?_cons_of_pos _ hf]

theorem find?_key_of_nodup {l : List α} (key : α → Nat)
    (h : (l.map key).Nodup) {a : α} (ha : a ∈ l) :
    l.find? (fun x => key x == key a) = some a := by
  induction l with
  | nil => simp at ha
  | cons x xs ih =>
    rw [List.map_cons, List.nodup_cons] at h
    rcases List.mem_cons.mp ha with rfl | ha'
    · exact List.find?_cons_of_pos _ (by simp)
    · have hk : ¬ key x = key a := by
        intro hEq
        exact h.1 (hEq ▸ List.mem_map_of_mem key ha')
      rw [List.find?_cons_of_neg _ (by simp [hk])]
      exact ih h.2 ha'

/-! ## C9: commission calculator round-trip -/

/-- C9: for every amount ≥ 0 and commission rate in [0,100], a successful
`calculateCommission` returns `commission_amount = round2 (amount * rate / 100)`
and `net_amount = round2 (amount - commission_amount)`, and
`commission_amount + net_amount` reproduces `amount` to within 0.01. -/
theorem C9_calculateCommission_roundtrip (uid : Nat) (amount : ℚ) (db : DB)
    (res : CommissionCalc) (hamt : 0 ≤ amount)
    (hlo : 0 ≤ getCommissionRate db) (hhi : getCommissionRate db ≤ 100)
    (h : calculateCommission uid amount db = .ok res) :
    res.commission_amount = jsRound2 (amount * getCommissionRate db / 100) ∧
    res.net_amount = jsRound2 (amount - res.commission_amount) ∧
    |res.commission_amount + res.net_amount - amount| ≤ 1/100 := by
  unfold calculateCommission at h
  cases hfu : findUser db uid with
  | none => rw [hfu] at h; exact absurd h (by simp)
  | some u =>
    rw [hfu] at h
    simp only [Except.ok.injEq] at h
    subst h
    exact ⟨rfl, rfl, commission_add_net_close ..⟩

/-- One registered user, default commission rate. -/
def dbOneUser : DB := { users := [{ user_id := 0 }] }

theorem C9_calculateCommission_roundtrip_witness :
    ∃ res, calculateCommission 0 100 dbOneUser = .ok res ∧
      (res.commission_amount = jsRound2 (100 * getCommissionRate dbOneUser / 100) ∧
       res.net_amount = jsRound2 (100 - res.commission_amount) ∧
       |res.commission_amount + res.net_amount - 100| ≤ 1/100) :=
  ⟨{ gross_amount := 100, commission_rate := 10, commission_amount := 10,
     net_amount := 90 }, by with_unfolding_all rfl,
   C9_calculateCommission_roundtrip 0 100 dbOneUser _ (by norm_num)
     (by with_unfolding_all decide) (by with_unfolding_all decide)
     (by with_unfolding_all rfl)⟩

/-! ## C4: marking a collaboration completed -/

/-- C4: when the owning brand requests status `completed`: for a paid
collaboration the request fails (400, "funds must be secured") unless an
escrow in status `secured` exists, and on success the collaboration and that
escrow both move to `completed_pending_release` stamped with
`release_scheduled_at = now + 48h`; for a barter/free collaboration the
request unconditionally sets status `completed` and payment_status `none`. -/
theorem C4_completed_transition (t : ℚ) (uid cid : Nat) (db : DB)
    (user : User) (collab : Collab)
    (hu : findUser db uid = some user)
    (hc : db.collaborations.find? (fun c => c.collab_id == cid) = some collab)
    (hb : collab.brand_user_id = user.user_id)
    (hids : (db.escrow_payments.map (·.escrow_id)).Nodup) :
    (jsOrStr collab.collaboration_type "paid" = "paid" →
      (db.escrow_payments.find?
          (fun e => e.collab_id == cid && e.status == "secured") = none →
        updateCollaborationStatus t uid cid "completed" db =
          .error (.badRequest "Fondurile trebuie securizate înainte de finalizare")) ∧
      (∀ escrow, db.escrow_payments.find?
          (fun e => e.collab_id == cid && e.status == "secured") = some escrow →
        ∃ db', updateCollaborationStatus t uid cid "completed" db = .ok ((), db') ∧
          db'.collaborations.find? (fun c => c.collab_id == cid) =
            some { collab with
                   status := "completed_pending_release",
                   payment_status := "completed_pending_release",
                   completed_at := some t,
                   release_scheduled_at := some (t + 48 * 60 * 60 * 1000) } ∧
          db'.escrow_payments.find? (fun e => e.escrow_id == escrow.escrow_id) =
            some { escrow with
                   status := "completed_pending_release",
                   completed_at := some t,
                   release_scheduled_at := some (t + 48 * 60 * 60 * 1000) })) ∧
    (jsOrStr collab.collaboration_type "paid" ≠ "paid" →
      ∃ db', updateCollaborationStatus t uid cid "completed" db = .ok ((), db') ∧
        db'.collaborations.find? (fun c => c.collab_id == cid) =
          some { collab with
                 status := "completed", payment_status := "none",
                 completed_at := some t }) := by
  have hbrand : ¬ collab.brand_user_id ≠ user.user_id := by simp [hb]
  constructor
  · intro hpaid
    constructor
    · intro hnone
      unfold updateCollaborationStatus
      rw [hu, hc]
      simp only []
      rw [if_neg hbrand, if_pos ⟨trivial, hpaid⟩, hnone]
    · intro escrow hesc
      have hescmem : escrow ∈ db.escrow_payments := List.mem_of_find?_eq_some hesc
      have hescid : db.escrow_payments.find?
          (fun e => e.escrow_id == escrow.escrow_id) = some escrow :=
        find?_key_of_nodup (·.escrow_id) hids hescmem
      unfold updateCollaborationStatus
      rw [hu, hc]
      simp only []
      rw [if_neg hbrand, if_pos ⟨trivial, hpaid⟩, hesc]
      refine ⟨_, rfl, ?_, ?_⟩
      · exact find?_updateFirst_same _ hc (by simpa using List.find?_some hc)
      · exact find?_updateFirst_same _ hescid (by simp)
  · intro hnpaid
    unfold updateCollaborationStatus
    rw [hu, hc]
    simp only []
    rw [if_neg hbrand, if_neg (by simp [hnpaid]), if_pos ⟨trivial, hnpaid⟩]
    refine ⟨_, rfl, ?_⟩
    exact find?_updateFirst_same _ hc (by simpa using List.find?_some hc)

/-- A brand, a paid collaboration (budget 1000) and its secured escrow. -/
def dbSecured : DB :=
  { users := [{ user_id := 0, user_type := "brand" }],
    collaborations := [{ collab_id := 1, brand_user_id := 0, status := "active",
                         payment_status := "secured", budget_min := some 1000,
                         collaboration_type := "paid", escrow_id := some 2 }],
    escrow_payments := [{ escrow_id := 2, collab_id := 1, brand_user_id := 0,
                          total_amount := 1000, influencer_payout := 900,
                          platform_commission := 100, commission_rate := 10,
                          status := "secured" }],
    nextId := 3 }

theorem C4_completed_transition_witness :
    ∃ user collab,
      findUser dbSecured 0 = some user ∧
      dbSecured.collaborations.find? (fun c => c.collab_id == 1) = some collab ∧
      collab.brand_user_id = user.user_id ∧
      (dbSecured.escrow_payments.map (·.escrow_id)).Nodup ∧
      (jsOrStr collab.collaboration_type "paid" = "paid" →
        (dbSecured.escrow_payments.find?
            (fun e => e.collab_id == 1 && e.status == "secured") = none →
          updateCollaborationStatus 0 0 1 "completed" dbSecured =
            .error (.badRequest "Fondurile trebuie securizate înainte de finalizare")) ∧
        (∀ escrow, dbSecured.escrow_payments.find?
            (fun e => e.collab_id == 1 && e.status == "secured") = some escrow →
          ∃ db', updateCollaborationStatus 0 0 1 "completed" dbSecured = .ok ((), db') ∧
            db'.collaborations.find? (fun c => c.collab_id == 1) =
              some { collab with
                     status := "completed_pending_release",
                     payment_status := "completed_pending_release",
                     completed_at := some 0,
                     release_scheduled_at := some (0 + 48 * 60 * 60 * 1000) } ∧
            db'.escrow_payments.find? (fun e => e.escrow_id == escrow.escrow_id) =
              some { escrow with
                     status := "completed_pending_release",
                     completed_at := some 0,
                     release_scheduled_at := some (0 + 48 * 60 * 60 * 1000) })) := by
  refine ⟨{ user_id := 0, user_type := "brand" },
          { collab_id := 1, brand_user_id := 0, status := "active",
            payment_status := "secured", budget_min := some 1000,
            collaboration_type := "paid", escrow_id := some 2 },
          by with_unfolding_all rfl, by with_unfolding_all rfl, rfl,
          by with_unfolding_all decide, ?_⟩
  exact (C4_completed_transition 0 0 1 dbSecured _ _ (by with_unfolding_all rfl)
    (by with_unfolding_all rfl) rfl (by with_unfolding_all decide)).1

/-! ## C5: opening a dispute -/

/-- C5: `createDispute` succeeds only during the confirmation window
(`completed_pending_release`) with no open/under_review dispute present; a
second open attempt fails with 400 Conflict; on success the collaboration's
status and payment_status both become `disputed`, an escrow in
`completed_pending_release` becomes `disputed`, and every message of the
collaboration gets `thread_locked = true`. -/
theorem C5_openDispute (t : ℚ) (uid cid : Nat) (reason details : String) (db : DB) :
    (∀ dsp db', createDispute t uid cid reason details db = .ok (dsp, db') →
      ∃ collab, db.collaborations.find? (fun c => c.collab_id == cid) = some collab ∧
        collab.status = "completed_pending_release" ∧
        db.disputes.find? (fun d => d.collab_id == cid &&
          (d.status == "open" || d.status == "under_review")) = none ∧
        db'.collaborations.find? (fun c => c.collab_id == cid) =
          some { collab with
                 status := "disputed", payment_status := "disputed",
                 disputed_at := some t } ∧
        (∀ e, db.escrow_payments.find? (fun e => e.collab_id == cid &&
            e.status == "completed_pending_release") = some e →
          { e with status := "disputed", disputed_at := some t } ∈ db'.escrow_payments) ∧
        (∀ m ∈ db'.messages, m.collab_id = cid → m.thread_locked = true)) ∧
    (∀ ex user collab,
      db.disputes.find? (fun d => d.collab_id == cid &&
        (d.status == "open" || d.status == "under_review")) = some ex →
      findUser db uid = some user →
      db.collaborations.find? (fun c => c.collab_id == cid) = some collab →
      collab.status = "completed_pending_release" →
      (collab.brand_user_id = user.user_id ∨
        isAcceptedInfluencer db cid user.user_id = true) →
      createDispute t uid cid reason details db =
        .error (.badRequest "O dispută este deja deschisă pentru această colaborare")) := by
  constructor
  · intro dsp db' h
    unfold createDispute at h
    split at h
    · simp at h
    next user hu =>
      split at h
      · simp at h
      next collab hc =>
        simp only [] at h
        split at h
        · simp at h
        next hst =>
          split at h
          · simp at h
          next hpart =>
            split at h
            next ex hex => simp at h
            next hnone =>
              split at h
              all_goals
                simp only [Except.ok.injEq, Prod.mk.injEq] at h
                obtain ⟨hdsp, hdb⟩ := h
                subst hdb
                refine ⟨collab, hc, not_ne_iff.mp hst, hnone,
                  find?_updateFirst_same _ hc (by simpa using List.find?_some hc), ?_, ?_⟩
                · intro e hesc
                  obtain ⟨l1, l2, _, _, hupd⟩ := find?_decomp hesc
                  rw [hupd]
                  simp
                · intro m hm hmc
                  obtain ⟨m0, hm0, rfl⟩ := List.mem_map.mp hm
                  by_cases hmc0 : m0.collab_id == cid
                  · simp [hmc0]
                  · simp only [hmc0] at hmc ⊢
                    simp at hmc0
                    exact absurd hmc hmc0
  · intro ex user collab hex hu hc hst hpart
    unfold createDispute
    rw [hu, hc]
    simp only []
    rw [if_neg (by simp [hst]), if_neg ?_, hex]
    simp only [Bool.not_eq_true]
    simp only [Bool.and_eq_true, Bool.not_eq_true', beq_eq_false_iff_ne, ne_eq,
      Bool.not_eq_true, Bool.and_eq_false_iff]
    by_cases hbu : collab.brand_user_id = user.user_id
    · exact Or.inl (by simp [hbu])
    · rcases hpart with h | h
      · exact absurd h hbu
      · exact Or.inr (by simp [hbu, h])

/-- Brand, influencer with accepted application, collaboration and escrow in
the confirmation window, one message. -/
def dbWindow : DB :=
  { users := [{ user_id := 0, user_type := "brand" }, { user_id := 1 }],
    collaborations := [{ collab_id := 2, brand_user_id := 0,
                         status := "completed_pending_release",
                         payment_status := "completed_pending_release",
                         budget_min := some 1000, collaboration_type := "paid" }],
    escrow_payments := [{ escrow_id := 3, collab_id := 2, brand_user_id := 0,
                          total_amount := 1000, influencer_payout := 900,
                          platform_commission := 100, commission_rate := 10,
                          status := "completed_pending_release" }],
    applications := [{ application_id := 4, collab_id := 2,
                       influencer_user_id := 1, status := "accepted" }],
    messages := [{ message_id := 5, collab_id := 2, sender_id := 0 }],
    nextId := 6 }

theorem C5_openDispute_witness :
    ∃ dsp db', createDispute 0 1 2 "quality" "" dbWindow = .ok (dsp, db') ∧
      ∃ collab, dbWindow.collaborations.find? (fun c => c.collab_id == 2) = some collab ∧
        collab.status = "completed_pending_release" ∧
        dbWindow.disputes.find? (fun d => d.collab_id == 2 &&
          (d.status == "open" || d.status == "under_review")) = none ∧
        db'.collaborations.find? (fun c => c.collab_id == 2) =
          some { collab with
                 status := "disputed", payment_status := "disputed",
                 disputed_at := some 0 } ∧
        (∀ e, dbWindow.escrow_payments.find? (fun e => e.collab_id == 2 &&
            e.status == "completed_pending_release") = some e →
          { e with status := "disputed", disputed_at := some 0 } ∈ db'.escrow_payments) ∧
        (∀ m ∈ db'.messages, m.collab_id = 2 → m.thread_locked = true) := by
  have hok : ∃ dsp db', createDispute 0 1 2 "quality" "" dbWindow = .ok (dsp, db') :=
    ⟨_, _, by with_unfolding_all rfl⟩
  obtain ⟨dsp, db', hok⟩ := hok
  exact ⟨dsp, db', hok, (C5_openDispute 0 1 2 "quality" "" dbWindow).1 dsp db' hok⟩

/-! ## C6: other status targets are direct unguarded updates -/

/-- C6 (amended): for any target status other than `completed`, the status
endpoint performs a direct unguarded write of the status field for the owning
brand — regardless of the current status, terminal (`completed`, `cancelled`)
included; no InvalidState rejection exists.  Every other collection is
untouched. -/
theorem C6_direct_status_update (t : ℚ) (uid cid : Nat) (newStatus : String)
    (db : DB) (user : User) (collab : Collab)
    (hns : newStatus ≠ "completed")
    (hu : findUser db uid = some user)
    (hc : db.collaborations.find? (fun c => c.collab_id == cid) = some collab)
    (hb : collab.brand_user_id = user.user_id) :
    ∃ db', updateCollaborationStatus t uid cid newStatus db = .ok ((), db') ∧
      db'.collaborations.find? (fun c => c.collab_id == cid) =
        some { collab with status := newStatus } ∧
      db'.escrow_payments = db.escrow_payments ∧
      db'.disputes = db.disputes ∧
      db'.cancellations = db.cancellations ∧
      db'.messages = db.messages ∧
      db'.reviews = db.reviews := by
  have hbrand : ¬ collab.brand_user_id ≠ user.user_id := by simp [hb]
  unfold updateCollaborationStatus
  rw [hu, hc]
  simp only []
  rw [if_neg hbrand, if_neg (by simp [hns]), if_neg (by simp [hns])]
  exact ⟨_, rfl, find?_updateFirst_same _ hc (by simpa using List.find?_some hc),
    rfl, rfl, rfl, rfl, rfl⟩

/-- A collaboration already in the terminal status `cancelled`. -/
def dbCancelled : DB :=
  { users := [{ user_id := 0 }],
    collaborations := [{ collab_id := 1, brand_user_id := 0, status := "cancelled",
                         payment_status := "none", collaboration_type := "paid" }],
    nextId := 2 }

/-- C6 counterexample: a status-change request on a `cancelled` (terminal)
collaboration does NOT fail with InvalidState — it succeeds and overwrites
the status. -/
theorem C6_counterexample :
    updateCollaborationStatus 0 0 1 "active" dbCancelled =
      .ok ((), { dbCancelled with
        collaborations := [{ collab_id := 1, brand_user_id := 0,
                             status := "active", payment_status := "none",
                             collaboration_type := "paid" }] }) := by
  with_unfolding_all rfl

theorem C6_direct_status_update_witness :
    ∃ db', updateCollaborationStatus 0 0 1 "active" dbCancelled = .ok ((), db') ∧
      db'.collaborations.find? (fun c => c.collab_id == 1) =
        some { collab_id := 1, brand_user_id := 0, status := "active",
               payment_status := "none", collaboration_type := "paid" } ∧
      db'.escrow_payments = dbCancelled.escrow_payments ∧
      db'.disputes = dbCancelled.disputes ∧
      db'.cancellations = dbCancelled.cancellations ∧
      db'.messages = dbCancelled.messages ∧
      db'.reviews = dbCancelled.reviews :=
  C6_direct_status_update 0 0 1 "active" dbCancelled
    { user_id := 0 }
    { collab_id := 1, brand_user_id := 0, status := "cancelled",
      payment_status := "none", collaboration_type := "paid" }
    (by decide) (by with_unfolding_all rfl) (by with_unfolding_all rfl) rfl

/-! ## C7: auto-resolved cancellation -/

/-- C7: a cancellation request by the brand or an accepted influencer on an
`active` collaboration with payment_status in {secured, awaiting_escrow, none}
auto-resolves: the collaboration becomes `cancelled` (payment_status
`refunded` when it was `secured`, else `none`), a `secured` escrow becomes
`refunded`, and a Cancellation record with status `completed` is appended. -/
theorem C7_cancel_auto_resolve (t : ℚ) (uid cid : Nat) (reason details : String)
    (db : DB) (user : User) (collab : Collab)
    (hu : findUser db uid = some user)
    (hc : db.collaborations.find? (fun c => c.collab_id == cid) = some collab)
    (hpart : collab.brand_user_id = user.user_id ∨
      isAcceptedInfluencer db cid user.user_id = true)
    (hst : collab.status = "active")
    (hpay : collab.payment_status = "secured" ∨
      collab.payment_status = "awaiting_escrow" ∨ collab.payment_status = "none") :
    ∃ db', cancelCollaboration t uid cid reason details db = .ok ((), db') ∧
      db'.collaborations.find? (fun c => c.collab_id == cid) =
        some { collab with
               status := "cancelled",
               payment_status := if collab.payment_status = "secured"
                                 then "refunded" else "none",
               cancelled_at := some t, cancelled_by := some user.user_id,
               cancellation_reason := some reason } ∧
      (collab.payment_status = "secured" →
        ∀ e, db.escrow_payments.find?
            (fun e => e.collab_id == cid && e.status == "secured") = some e →
          { e with status := "refunded", refunded_at := some t } ∈ db'.escrow_payments) ∧
      (collab.payment_status ≠ "secured" → db'.escrow_payments = db.escrow_payments) ∧
      db'.cancellations = db.cancellations ++
        [{ cancellation_id := db.nextId, collab_id := cid,
           requested_by := user.user_id,
           requester_type := if collab.brand_user_id == user.user_id
                             then "brand" else "influencer",
           reason := reason, details := details, status := "completed",
           resolution := some (if collab.payment_status = "secured"
                               then "full_refund" else "no_payment"),
           created_at := t, resolved_at := some t }] := by
  have hpayne : collab.payment_status ≠ "" := by
    rcases hpay with h | h | h <;> simp [h]
  have hpays : jsOrStr collab.payment_status "none" = collab.payment_status := by
    simp [jsOrStr, hpayne]
  unfold cancelCollaboration
  rw [hu, hc]
  simp only []
  rw [if_neg ?hpartic, if_neg (by simp [hst]), if_pos ⟨hst, by rw [hpays]; exact hpay⟩]
  case hpartic =>
    simp only [Bool.not_eq_true]
    simp only [Bool.and_eq_true, Bool.not_eq_true', beq_eq_false_iff_ne, ne_eq,
      Bool.not_eq_true, Bool.and_eq_false_iff]
    by_cases hbu : collab.brand_user_id = user.user_id
    · exact Or.inl (by simp [hbu])
    · rcases hpart with h | h
      · exact absurd h hbu
      · exact Or.inr (by simp [hbu, h])
  refine ⟨_, rfl, find?_updateFirst_same _ hc (by simpa using List.find?_some hc),
    ?_, ?_, rfl⟩
  · intro hsec e hesc
    simp only [if_pos hsec]
    obtain ⟨l1, l2, _, _, hupd⟩ := find?_decomp hesc
    rw [hupd]
    simp
  · intro hnsec
    simp only [if_neg hnsec]

theorem C7_cancel_auto_resolve_witness :
    ∃ db', cancelCollaboration 0 0 1 "budget_issues" "" dbSecured = .ok ((), db') ∧
      db'.collaborations.find? (fun c => c.collab_id == 1) =
        some { collab_id := 1, brand_user_id := 0, status := "cancelled",
               payment_status := "refunded", budget_min := some 1000,
               collaboration_type := "paid", escrow_id := some 2,
               cancelled_at := some 0, cancelled_by := some 0,
               cancellation_reason := some "budget_issues" } ∧
      db'.cancellations.length = 1 := by
  obtain ⟨db', hok, hfind, hsec, hnsec, hcanc⟩ :=
    C7_cancel_auto_resolve 0 0 1 "budget_issues" "" dbSecured
      { user_id := 0, user_type := "brand" }
      { collab_id := 1, brand_user_id := 0, status := "active",
        payment_status := "secured", budget_min := some 1000,
        collaboration_type := "paid", escrow_id := some 2 }
      (by with_unfolding_all rfl) (by with_unfolding_all rfl)
      (Or.inl rfl) rfl (Or.inl rfl)
  refine ⟨db', hok, ?_, ?_⟩
  · rw [hfind]
    with_unfolding_all rfl
  · rw [hcanc]
    with_unfolding_all rfl

/-! ## C2: the commission-rate snapshot -/

/-- The commission rows `releaseEscrow` inserts, as a function of the database. -/
def releaseCommissions (t : ℚ) (db : DB) (escrow : Escrow) : List Commission :=
  ((db.applications.filter (fun a => a.collab_id == escrow.collab_id &&
      a.status == "accepted")).enum.map (fun (ka : Nat × Application) =>
    ({ commission_id := db.nextId + ka.1, collab_id := escrow.collab_id,
       application_id := ka.2.application_id,
       brand_user_id := escrow.brand_user_id,
       influencer_user_id := ka.2.influencer_user_id,
       gross_amount := jsOrNum ka.2.proposed_price (jsOrNum0 escrow.total_amount 0),
       commission_rate := jsOrNum0 escrow.commission_rate (getCommissionRate db),
       commission_amount := jsRound2 (jsOrNum ka.2.proposed_price
         (jsOrNum0 escrow.total_amount 0) *
         jsOrNum0 escrow.commission_rate (getCommissionRate db) / 100),
       net_amount := jsRound2 (jsOrNum ka.2.proposed_price
         (jsOrNum0 escrow.total_amount 0) -
         jsRound2 (jsOrNum ka.2.proposed_price (jsOrNum0 escrow.total_amount 0) *
           jsOrNum0 escrow.commission_rate (getCommissionRate db) / 100)),
       status := "completed", created_at := t } : Commission)))

theorem releaseEscrow_ok (t : ℚ) (uid eid : Nat) (db : DB) (user : User)
    (escrow : Escrow)
    (hu : findUser db uid = some user)
    (he : db.escrow_payments.find? (fun e => e.escrow_id == eid) = some escrow)
    (hauth : escrow.brand_user_id = user.user_id ∨ user.is_admin = true)
    (hstat : escrow.status = "completed_pending_release") :
    ∃ db', releaseEscrow t uid eid db = .ok ((), db') ∧
      db'.commissions = db.commissions ++ releaseCommissions t db escrow := by
  have hauth' : ¬ (escrow.brand_user_id ≠ user.user_id ∧ user.is_admin = false) := by
    rcases hauth with h | h <;> simp [h]
  unfold releaseEscrow
  rw [hu, he]
  simp only []
  rw [if_neg hauth', if_neg (by simp [hstat])]
  exact ⟨_, rfl, rfl⟩

theorem resolveDispute_release_ok (t : ℚ) (uid did : Nat) (notes : String)
    (db : DB) (user : User) (dispute : Dispute) (escrow : Escrow)
    (hu : findUser db uid = some user)
    (hadmin : user.is_admin = true)
    (hd : db.disputes.find? (fun d => d.dispute_id == did) = some dispute)
    (hnres : dispute.status ≠ "resolved")
    (hesc : db.escrow_payments.find?
      (fun e => e.collab_id == dispute.collab_id && e.status == "disputed") =
        some escrow) :
    ∃ db', resolveDispute t uid did "release_to_influencer" notes 0 0 db =
        .ok ((), db') ∧
      db'.commissions = db.commissions ++
        releaseCommissions t db { escrow with collab_id := dispute.collab_id } := by
  unfold resolveDispute
  rw [hu]
  simp only []
  rw [if_neg (by simp [hadmin]), hd]
  simp only []
  rw [if_neg (by simp [hnres]), hesc]
  simp only [releaseCommissions, if_true]
  exact ⟨_, rfl, rfl⟩

/-- C2 (amended): whenever the rate captured in the escrow is nonzero, the
commission rows written by `releaseEscrow` — and by `resolveDispute` with
resolution `release_to_influencer` — are computed from the captured rate and
do not depend on the settings store: running the same release against two
databases that differ only in the global commission rate yields identical
commission rows, each carrying the captured rate.  (Captured rate 0 is
excluded: the JS fallback `escrow.commission_rate || getCommissionRate()`
treats 0 as missing — see the counterexample.) -/
theorem C2_rate_snapshot (t : ℚ) (uid eid did : Nat) (notes : String)
    (db : DB) (s1 s2 : Option ℚ) (user : User)
    (hu : findUser db uid = some user) :
    (∀ escrow,
      db.escrow_payments.find? (fun e => e.escrow_id == eid) = some escrow →
      escrow.commission_rate ≠ 0 →
      (escrow.brand_user_id = user.user_id ∨ user.is_admin = true) →
      escrow.status = "completed_pending_release" →
      ∃ db1' db2',
        releaseEscrow t uid eid { db with commission_rate_setting := s1 } =
          .ok ((), db1') ∧
        releaseEscrow t uid eid { db with commission_rate_setting := s2 } =
          .ok ((), db2') ∧
        db1'.commissions = db2'.commissions ∧
        ∀ cm ∈ db1'.commissions.drop db.commissions.length,
          cm.commission_rate = escrow.commission_rate ∧
          cm.commission_amount =
            jsRound2 (cm.gross_amount * escrow.commission_rate / 100) ∧
          cm.net_amount = jsRound2 (cm.gross_amount - cm.commission_amount)) ∧
    (∀ dispute escrow,
      user.is_admin = true →
      db.disputes.find? (fun d => d.dispute_id == did) = some dispute →
      dispute.status ≠ "resolved" →
      db.escrow_payments.find?
        (fun e => e.collab_id == dispute.collab_id && e.status == "disputed") =
          some escrow →
      escrow.commission_rate ≠ 0 →
      ∃ db1' db2',
        resolveDispute t uid did "release_to_influencer" notes 0 0
          { db with commission_rate_setting := s1 } = .ok ((), db1') ∧
        resolveDispute t uid did "release_to_influencer" notes 0 0
          { db with commission_rate_setting := s2 } = .ok ((), db2') ∧
        db1'.commissions = db2'.commissions ∧
        ∀ cm ∈ db1'.commissions.drop db.commissions.length,
          cm.commission_rate = escrow.commission_rate ∧
          cm.commission_amount =
            jsRound2 (cm.gross_amount * escrow.commission_rate / 100) ∧
          cm.net_amount = jsRound2 (cm.gross_amount - cm.commission_amount)) := by
  constructor
  · intro escrow he hrate hauth hstat
    obtain ⟨db1', h1, hc1⟩ := releaseEscrow_ok t uid eid
      { db with commission_rate_setting := s1 } user escrow hu he hauth hstat
    obtain ⟨db2', h2, hc2⟩ := releaseEscrow_ok t uid eid
      { db with commission_rate_setting := s2 } user escrow hu he hauth hstat
    have hkey : ∀ s : Option ℚ,
        releaseCommissions t { db with commission_rate_setting := s } escrow =
        releaseCommissions t db escrow := by
      intro s
      simp [releaseCommissions, jsOrNum0, hrate]
    rw [hkey s1] at hc1
    rw [hkey s2] at hc2
    refine ⟨db1', db2', h1, h2, by rw [hc1, hc2], ?_⟩
    intro cm hcm
    rw [hc1, List.drop_left] at hcm
    obtain ⟨⟨k, a⟩, _, rfl⟩ := List.mem_map.mp hcm
    refine ⟨by simp [jsOrNum0, hrate], by simp [jsOrNum0, hrate], ?_⟩
    simp [jsOrNum0, hrate]
  · intro dispute escrow hadmin hd hnres hesc hrate
    obtain ⟨db1', h1, hc1⟩ := resolveDispute_release_ok t uid did notes
      { db with commission_rate_setting := s1 } user dispute escrow hu hadmin hd hnres hesc
    obtain ⟨db2', h2, hc2⟩ := resolveDispute_release_ok t uid did notes
      { db with commission_rate_setting := s2 } user dispute escrow hu hadmin hd hnres hesc
    have hkey : ∀ s : Option ℚ,
        releaseCommissions t { db with commission_rate_setting := s }
          { escrow with collab_id := dispute.collab_id } =
        releaseCommissions t db { escrow with collab_id := dispute.collab_id } := by
      intro s
      simp [releaseCommissions, jsOrNum0, hrate]
    rw [hkey s1] at hc1
    rw [hkey s2] at hc2
    refine ⟨db1', db2', h1, h2, by rw [hc1, hc2], ?_⟩
    intro cm hcm
    rw [hc1, List.drop_left] at hcm
    obtain ⟨⟨k, a⟩, _, rfl⟩ := List.mem_map.mp hcm
    refine ⟨by simp [jsOrNum0, hrate], by simp [jsOrNum0, hrate], ?_⟩
    simp [jsOrNum0, hrate]

/-- A released-ready escrow whose captured rate is 0 (reachable: the admin
can set the global rate to 0 before escrow creation), with the global rate
parameterised. -/
def dbZeroRate (s : ℚ) : DB :=
  { users := [{ user_id := 0, user_type := "brand" }],
    collaborations := [{ collab_id := 1, brand_user_id := 0,
                         status := "completed_pending_release",
                         payment_status := "completed_pending_release",
                         budget_min := some 1000, collaboration_type := "paid" }],
    escrow_payments := [{ escrow_id := 2, collab_id := 1, brand_user_id := 0,
                          total_amount := 1000, influencer_payout := 1000,
                          platform_commission := 0, commission_rate := 0,
                          status := "completed_pending_release" }],
    applications := [{ application_id := 3, collab_id := 1,
                       influencer_user_id := 4, status := "accepted",
                       proposed_price := some 1000 }],
    commission_rate_setting := some s,
    nextId := 5 }

/-- C2 counterexample: for an escrow whose captured commission_rate is 0 the
release math follows the CURRENT global rate (JS `||` treats 0 as falsy), so
changing the global rate between creation and release changes the recorded
commission_amount: 100 under a global rate of 10, 200 under 20 — never the
captured 0. -/
theorem C2_counterexample :
    ∃ dbA dbB,
      releaseEscrow 0 0 2 (dbZeroRate 10) = .ok ((), dbA) ∧
      releaseEscrow 0 0 2 (dbZeroRate 20) = .ok ((), dbB) ∧
      dbA.commissions.map
        (fun cm => (cm.commission_rate, cm.commission_amount, cm.net_amount)) =
        [(10, 100, 900)] ∧
      dbB.commissions.map
        (fun cm => (cm.commission_rate, cm.commission_amount, cm.net_amount)) =
        [(20, 200, 800)] :=
  ⟨_, _, by with_unfolding_all rfl, by with_unfolding_all rfl,
   by with_unfolding_all rfl, by with_unfolding_all rfl⟩

theorem C2_rate_snapshot_witness :
    ∃ db1' db2',
      releaseEscrow 0 0 3 { dbWindow with commission_rate_setting := some 10 } =
        .ok ((), db1') ∧
      releaseEscrow 0 0 3 { dbWindow with commission_rate_setting := some 25 } =
        .ok ((), db2') ∧
      db1'.commissions = db2'.commissions ∧
      ∀ cm ∈ db1'.commissions.drop dbWindow.commissions.length,
        cm.commission_rate = 10 ∧
        cm.commission_amount = jsRound2 (cm.gross_amount * 10 / 100) ∧
        cm.net_amount = jsRound2 (cm.gross_amount - cm.commission_amount) := by
  obtain ⟨db1', db2', h1, h2, heq, hprops⟩ :=
    (C2_rate_snapshot 0 0 3 0 "" dbWindow (some 10) (some 25)
      { user_id := 0, user_type := "brand" } (by with_unfolding_all rfl)).1
      { escrow_id := 3, collab_id := 2, brand_user_id := 0, total_amount := 1000,
        influencer_payout := 900, platform_commission := 100, commission_rate := 10,
        status := "completed_pending_release" }
      (by with_unfolding_all rfl) (by norm_num) (Or.inl rfl) rfl
  exact ⟨db1', db2', h1, h2, heq, hprops⟩

/-! ## C10: unknown dispute resolutions fall through -/

theorem releaseEscrow_disputed_fails (t : ℚ) (uid eid : Nat) (db : DB)
    (escrow : Escrow)
    (he : db.escrow_payments.find? (fun e => e.escrow_id == eid) = some escrow)
    (hst : escrow.status = "disputed") :
    ∀ r, releaseEscrow t uid eid db ≠ .ok r := by
  intro r h
  unfold releaseEscrow at h
  split at h
  · simp at h
  next user hu =>
    rw [he] at h
    simp only [] at h
    split at h
    · simp at h
    next =>
      rw [if_pos (by simp [hst])] at h
      simp at h

theorem refundEscrow_disputed_fails (t : ℚ) (uid eid : Nat) (db : DB)
    (escrow : Escrow)
    (he : db.escrow_payments.find? (fun e => e.escrow_id == eid) = some escrow)
    (hst : escrow.status = "disputed") :
    ∀ r, refundEscrow t uid eid db ≠ .ok r := by
  intro r h
  unfold refundEscrow at h
  split at h
  · simp at h
  next user hu =>
    rw [he] at h
    simp only [] at h
    split at h
    · simp at h
    next =>
      rw [if_pos (by simp [hst])] at h
      simp at h

/-- C10: an admin resolving an unresolved dispute with a resolution outside
{release_to_influencer, refund_to_brand, split} succeeds (no ValidationError):
the dispute is marked `resolved` with that string recorded, while escrows,
collaborations and commissions are completely unchanged; afterwards a
`disputed` escrow can never be released or refunded. -/
theorem C10_unknown_resolution (t : ℚ) (uid did : Nat) (resolution notes : String)
    (si sb : ℚ) (db : DB) (user : User) (dispute : Dispute)
    (hu : findUser db uid = some user) (hadmin : user.is_admin = true)
    (hd : db.disputes.find? (fun d => d.dispute_id == did) = some dispute)
    (hnres : dispute.status ≠ "resolved")
    (hr1 : resolution ≠ "release_to_influencer")
    (hr2 : resolution ≠ "refund_to_brand")
    (hr3 : resolution ≠ "split") :
    ∃ db', resolveDispute t uid did resolution notes si sb db = .ok ((), db') ∧
      db'.escrow_payments = db.escrow_payments ∧
      db'.collaborations = db.collaborations ∧
      db'.commissions = db.commissions ∧
      db'.disputes.find? (fun d => d.dispute_id == did) =
        some { dispute with
               status := "resolved", resolution := some resolution,
               admin_notes := some notes,
               split_influencer := if resolution = "split" then some si else none,
               split_brand := if resolution = "split" then some sb else none,
               resolved_at := some t } ∧
      (∀ t2 uid2 eid escrow,
        db'.escrow_payments.find? (fun e => e.escrow_id == eid) = some escrow →
        escrow.status = "disputed" →
        (∀ r, releaseEscrow t2 uid2 eid db' ≠ .ok r) ∧
        (∀ r, refundEscrow t2 uid2 eid db' ≠ .ok r)) := by
  unfold resolveDispute
  rw [hu]
  simp only []
  rw [if_neg (by simp [hadmin]), hd]
  simp only []
  rw [if_neg (by simp [hnres]), if_neg hr1, if_neg hr2, if_neg hr3]
  refine ⟨_, rfl, rfl, rfl, rfl,
    find?_updateFirst_same _ hd (by simpa using List.find?_some hd), ?_⟩
  intro t2 uid2 eid escrow he hst
  exact ⟨releaseEscrow_disputed_fails t2 uid2 eid _ escrow he hst,
         refundEscrow_disputed_fails t2 uid2 eid _ escrow he hst⟩

/-- An admin, an open dispute and its frozen (`disputed`) escrow. -/
def dbDisputed : DB :=
  { users := [{ user_id := 0, is_admin := true }],
    collaborations := [{ collab_id := 1, brand_user_id := 2, status := "disputed",
                         payment_status := "disputed",
                         collaboration_type := "paid" }],
    escrow_payments := [{ escrow_id := 3, collab_id := 1, brand_user_id := 2,
                          total_amount := 1000, influencer_payout := 900,
                          platform_commission := 100, commission_rate := 10,
                          status := "disputed" }],
    disputes := [{ dispute_id := 4, collab_id := 1, opened_by := 2,
                   opener_type := "brand", status := "open", brand_user_id := 2 }],
    nextId := 5 }

theorem C10_unknown_resolution_witness :
    ∃ db', resolveDispute 0 0 4 "keep_funds" "" 0 0 dbDisputed = .ok ((), db') ∧
      db'.escrow_payments = dbDisputed.escrow_payments ∧
      db'.collaborations = dbDisputed.collaborations ∧
      db'.commissions = dbDisputed.commissions ∧
      db'.disputes.find? (fun d => d.dispute_id == 4) =
        some { dispute_id := 4, collab_id := 1, opened_by := 2,
               opener_type := "brand", status := "resolved",
               resolution := some "keep_funds", admin_notes := some "",
               brand_user_id := 2, split_influencer := none, split_brand := none,
               resolved_at := some 0 } ∧
      (∀ t2 uid2 eid escrow,
        db'.escrow_payments.find? (fun e => e.escrow_id == eid) = some escrow →
        escrow.status = "disputed" →
        (∀ r, releaseEscrow t2 uid2 eid db' ≠ .ok r) ∧
        (∀ r, refundEscrow t2 uid2 eid db' ≠ .ok r)) := by
  obtain ⟨db', hok, he, hc, hcm, hdisp, hfrozen⟩ :=
    C10_unknown_resolution 0 0 4 "keep_funds" "" 0 0 dbDisputed
      { user_id := 0, is_admin := true }
      { dispute_id := 4, collab_id := 1, opened_by := 2,
        opener_type := "brand", status := "open", brand_user_id := 2 }
      (by with_unfolding_all rfl) rfl (by with_unfolding_all rfl)
      (by decide) (by decide) (by decide) (by decide)
  refine ⟨db', hok, he, hc, hcm, ?_, hfrozen⟩
  rw [hdisp]
  with_unfolding_all rfl

/-! ## Reachable-state invariants

`moneyView` projects the immutable monetary identity of an escrow row;
`ActiveCount` counts a collaboration's escrows in `{pending, secured}`;
`PairRevealed` is the inductive reveal invariant of the review pairs. -/

def moneyView (e : Escrow) : Nat × ℚ × ℚ × ℚ × ℚ :=
  (e.escrow_id, e.total_amount, e.platform_commission, e.influencer_payout,
   e.commission_rate)

def MoneyOKv : Nat × ℚ × ℚ × ℚ × ℚ → Prop
  | (_, total, commission, payout, rate) =>
      commission = jsRound2 (total * rate / 100) ∧
      payout = jsRound2 (total - commission)

def ActiveCount (cid : Nat) (db : DB) : Nat :=
  (db.escrow_payments.filter (fun e => e.collab_id == cid &&
    (e.status == "pending" || e.status == "secured"))).length

def PairRevealed (db : DB) : Prop :=
  db.reviews.Pairwise (fun r1 r2 => r1.application_id = r2.application_id →
    r1.is_revealed = true ∧ r2.is_revealed = true)

/-- What one request preserves: the monetary view of existing escrow rows
(new rows satisfy the money identity), the at-most-one-active-escrow bound,
and the review-pair reveal invariant. -/
def StepOk (db db' : DB) : Prop :=
  (∃ tail, db'.escrow_payments.map moneyView =
      db.escrow_payments.map moneyView ++ tail ∧ ∀ mv ∈ tail, MoneyOKv mv) ∧
  (∀ cid, ActiveCount cid db ≤ 1 → ActiveCount cid db' ≤ 1) ∧
  (PairRevealed db → PairRevealed db')

theorem map_updateFirst {g : α → β} {f : α → α} (p : α → Bool) (l : List α)
    (hf : ∀ a, g (f a) = g a) : (updateFirst p f l).map g = l.map g := by
  induction l with
  | nil => rfl
  | cons x xs ih =>
    unfold updateFirst
    split <;> simp [hf, ih]

theorem length_filter_updateFirst_le {q : α → Bool} (p : α → Bool) (f : α → α)
    (l : List α) (hq : ∀ a, q (f a) = false) :
    ((updateFirst p f l).filter q).length ≤ (l.filter q).length := by
  induction l with
  | nil => simp [updateFirst]
  | cons x xs ih =>
    unfold updateFirst
    by_cases hx : p x = true
    · rw [if_pos hx]
      simp only [List.filter_cons, hq x]
      by_cases hqx : q x = true <;> simp [hqx] <;> omega
    · rw [if_neg hx]
      simp only [List.filter_cons]
      by_cases hqx : q x = true <;> simp [hqx] <;> omega

theorem length_filter_updateFirst_eq {p q : α → Bool} {l : List α} {a : α}
    (h : l.find? p = some a) (f : α → α) (hq : q (f a) = q a) :
    ((updateFirst p f l).filter q).length = (l.filter q).length := by
  obtain ⟨l1, l2, hsplit, _, hupd⟩ := find?_decomp h
  rw [hupd f, hsplit]
  simp only [List.filter_append, List.filter_cons, hq, List.length_append]
  by_cases hqa : q a = true <;> simp [hqa]

theorem stepOk_of_unchanged {db db' : DB}
    (he : db'.escrow_payments = db.escrow_payments)
    (hr : db'.reviews = db.reviews) : StepOk db db' := by
  refine ⟨⟨[], by simp [he], by simp⟩, fun cid h => ?_, fun h => ?_⟩
  · unfold ActiveCount
    rw [he]
    exact h
  · unfold PairRevealed
    rw [hr]
    exact h

theorem stepOk_refl (db : DB) : StepOk db db := stepOk_of_unchanged rfl rfl

theorem filter_eq_nil_of_find?_none {p : α → Bool} {l : List α}
    (h : l.find? p = none) : l.filter p = [] := by
  rw [List.filter_eq_nil_iff]
  intro a ha
  exact (List.find?_eq_none.mp h) a ha

/-- Appending a fresh `pending` escrow row (guarded by the
no-active-escrow check) preserves the step invariants. -/
theorem stepOk_append_escrow {db db' : DB} {e : Escrow}
    (hdb' : db'.escrow_payments = db.escrow_payments ++ [e])
    (hr : db'.reviews = db.reviews)
    (hmo : MoneyOKv (moneyView e))
    (hst : e.status = "pending")
    (hnone : db.escrow_payments.find? (fun x => x.collab_id == e.collab_id &&
      (x.status == "pending" || x.status == "secured")) = none) :
    StepOk db db' := by
  refine ⟨⟨[moneyView e], by simp [hdb'], by simpa using hmo⟩, fun cid h => ?_,
    fun h => ?_⟩
  · unfold ActiveCount at h ⊢
    rw [hdb', List.filter_append, List.length_append]
    by_cases hcid : e.collab_id = cid
    · have : db.escrow_payments.filter (fun x => x.collab_id == cid &&
          (x.status == "pending" || x.status == "secured")) = [] := by
        apply filter_eq_nil_of_find?_none
        rw [← hcid]
        exact hnone
      rw [this]
      simp [hcid, hst]
    · have : ([e].filter (fun x => x.collab_id == cid &&
          (x.status == "pending" || x.status == "secured"))) = [] := by
        simp [hcid]
      rw [this]
      simpa using h
  · unfold PairRevealed at h ⊢
    rw [hr]
    exact h

/-- A Mongo `updateOne` on escrows whose update writes a status outside
`{pending, secured}` and leaves the monetary fields alone preserves the
step invariants. -/
theorem stepOk_updateFirst_escrow {db db' : DB} (p : Escrow → Bool)
    (f : Escrow → Escrow)
    (hdb' : db'.escrow_payments = updateFirst p f db.escrow_payments)
    (hr : db'.reviews = db.reviews)
    (hmv : ∀ e, moneyView (f e) = moneyView e)
    (hst : ∀ e, (f e).status ≠ "pending" ∧ (f e).status ≠ "secured") :
    StepOk db db' := by
  refine ⟨⟨[], by simp [hdb', map_updateFirst p _ hmv], by simp⟩,
    fun cid h => ?_, fun h => ?_⟩
  · unfold ActiveCount at h ⊢
    rw [hdb']
    refine le_trans (length_filter_updateFirst_le p f _ ?_) h
    intro a
    obtain ⟨h1, h2⟩ := hst a
    simp [h1, h2]
  · unfold PairRevealed at h ⊢
    rw [hr]
    exact h

/-- `secureEscrow`'s update (`pending → secured` on the row found by id)
preserves the step invariants. -/
theorem stepOk_secure_escrow {db db' : DB} {eid : Nat} {escrow : Escrow}
    (f : Escrow → Escrow)
    (he : db.escrow_payments.find? (fun e => e.escrow_id == eid) = some escrow)
    (hpend : escrow.status = "pending")
    (hdb' : db'.escrow_payments =
      updateFirst (fun e => e.escrow_id == eid) f db.escrow_payments)
    (hr : db'.reviews = db.reviews)
    (hmv : ∀ e, moneyView (f e) = moneyView e)
    (hfst : (f escrow).status = "secured")
    (hfcid : (f escrow).collab_id = escrow.collab_id) :
    StepOk db db' := by
  refine ⟨⟨[], by simp [hdb', map_updateFirst _ _ hmv], by simp⟩,
    fun cid h => ?_, fun h => ?_⟩
  · unfold ActiveCount at h ⊢
    rw [hdb']
    rw [length_filter_updateFirst_eq he f (by simp [hfst, hfcid, hpend])]
    exact h
  · unfold PairRevealed at h ⊢
    rw [hr]
    exact h

/-- The pair predicate of `PairRevealed`. -/
def pairRevealedRel (r1 r2 : Review) : Prop :=
  r1.application_id = r2.application_id →
    r1.is_revealed = true ∧ r2.is_revealed = true

theorem pairRevealed_insert_fresh {l : List Review} {r : Review}
    (hnone : ∀ x ∈ l, x.application_id ≠ r.application_id)
    (h : l.Pairwise pairRevealedRel) : (l ++ [r]).Pairwise pairRevealedRel := by
  rw [List.pairwise_append]
  refine ⟨h, by simp, ?_⟩
  intro x hx y hy
  simp at hy
  subst hy
  intro happ
  exact absurd happ (hnone x hx)

theorem pairRevealed_insert_and_reveal {l : List Review} {r : Review} {aid : Nat}
    (hr : r.application_id = aid)
    (h : l.Pairwise pairRevealedRel) :
    ((l ++ [r]).map (fun x => if x.application_id == aid
      then { x with is_revealed := true } else x)).Pairwise pairRevealedRel := by
  have happ : ∀ x : Review, ((fun x => if x.application_id == aid
      then { x with is_revealed := true } else x) x).application_id =
      x.application_id := by
    intro x
    by_cases hx : x.application_id = aid <;> simp [hx]
  rw [List.pairwise_map, List.pairwise_append]
  refine ⟨?_, by simp, ?_⟩
  · refine h.imp ?_
    intro a b hab
    simp only [pairRevealedRel] at hab ⊢
    by_cases ha : a.application_id = aid <;> by_cases hb : b.application_id = aid
    · intro _
      constructor <;> simp [ha, hb]
    · intro h'
      rw [happ a, happ b] at h'
      exact absurd (h' ▸ ha) hb
    · intro h'
      rw [happ a, happ b] at h'
      exact absurd (h'.symm ▸ hb) ha
    · intro h'
      rw [happ a, happ b] at h'
      obtain ⟨h1, h2⟩ := hab h'
      constructor <;> simp [ha, hb, h1, h2]
  · intro x _ y hy
    simp at hy
    rw [hy]
    simp only [pairRevealedRel]
    intro h'
    rw [happ x, happ r] at h'
    constructor <;> simp [h' ▸ hr, hr]

theorem updateInfluencerRating_reviews (u : Nat) (db : DB) :
    (updateInfluencerRating u db).reviews = db.reviews := by
  unfold updateInfluencerRating
  dsimp only
  split <;> rfl

theorem updateInfluencerRating_escrows (u : Nat) (db : DB) :
    (updateInfluencerRating u db).escrow_payments = db.escrow_payments := by
  unfold updateInfluencerRating
  dsimp only
  split <;> rfl

theorem foldl_rating_reviews (us : List Nat) (db : DB) :
    (us.foldl (fun acc u => updateInfluencerRating u acc) db).reviews =
      db.reviews := by
  induction us generalizing db with
  | nil => rfl
  | cons u us ih => rw [List.foldl_cons, ih, updateInfluencerRating_reviews]

theorem foldl_rating_escrows (us : List Nat) (db : DB) :
    (us.foldl (fun acc u => updateInfluencerRating u acc) db).escrow_payments =
      db.escrow_payments := by
  induction us generalizing db with
  | nil => rfl
  | cons u us ih => rw [List.foldl_cons, ih, updateInfluencerRating_escrows]

/-! ### One `StepOk` lemma per request -/

theorem stepOk_of_handler_unchanged {α : Type} {db : DB}
    (r : Except ApiErr (α × DB))
    (h : ∀ a db', r = .ok (a, db') →
      db'.escrow_payments = db.escrow_payments ∧ db'.reviews = db.reviews) :
    StepOk db (stepOf db r) := by
  cases r with
  | error e => exact stepOk_refl db
  | ok p =>
    obtain ⟨he, hr⟩ := h p.1 p.2 rfl
    exact stepOk_of_unchanged he hr

theorem stepOk_registerUser (t : ℚ) (ut : String) (ia : Bool) (db : DB) :
    StepOk db (stepOf db (registerUser t ut ia db)) :=
  stepOk_of_unchanged rfl rfl

theorem stepOk_createInfluencerProfile (uid : Nat) (un : String) (db : DB) :
    StepOk db (stepOf db (createInfluencerProfile uid un db)) := by
  apply stepOk_of_handler_unchanged
  intro a db' h
  unfold createInfluencerProfile at h
  repeat' split at h
  all_goals try (exact Except.noConfusion h)
  all_goals try
    (revert h
     lift_lets
     first
       | (intro hx1 hx2 hx3 h
          split at h <;> try (exact Except.noConfusion h))
       | (intro hx1 hx2 h
          split at h <;> try (exact Except.noConfusion h))
       | (intro hx1 h
          split at h <;> try (exact Except.noConfusion h)))
  all_goals
    injection h with hpair
    have hdb : _ = db' := congrArg Prod.snd hpair
    subst hdb
    exact ⟨rfl, rfl⟩


theorem stepOk_createCollaboration (t : ℚ) (uid : Nat) (data : CollabCreate)
    (db : DB) : StepOk db (stepOf db (createCollaboration t uid data db)) := by
  apply stepOk_of_handler_unchanged
  intro a db' h
  unfold createCollaboration at h
  repeat' split at h
  all_goals try (exact Except.noConfusion h)
  all_goals try
    (revert h
     lift_lets
     first
       | (intro hx1 hx2 hx3 h
          split at h <;> try (exact Except.noConfusion h))
       | (intro hx1 hx2 h
          split at h <;> try (exact Except.noConfusion h))
       | (intro hx1 h
          split at h <;> try (exact Except.noConfusion h)))
  all_goals
    injection h with hpair
    have hdb : _ = db' := congrArg Prod.snd hpair
    subst hdb
    exact ⟨rfl, rfl⟩


theorem stepOk_viewCollaboration (cid : Nat) (db : DB) :
    StepOk db (stepOf db (viewCollaboration cid db)) := by
  apply stepOk_of_handler_unchanged
  intro a db' h
  unfold viewCollaboration at h
  repeat' split at h
  all_goals try (exact Except.noConfusion h)
  all_goals try
    (revert h
     lift_lets
     first
       | (intro hx1 hx2 hx3 h
          split at h <;> try (exact Except.noConfusion h))
       | (intro hx1 hx2 h
          split at h <;> try (exact Except.noConfusion h))
       | (intro hx1 h
          split at h <;> try (exact Except.noConfusion h)))
  all_goals
    injection h with hpair
    have hdb : _ = db' := congrArg Prod.snd hpair
    subst hdb
    exact ⟨rfl, rfl⟩


theorem stepOk_updateCollaboration (uid cid : Nat) (body : CollabPatch)
    (db : DB) : StepOk db (stepOf db (updateCollaboration uid cid body db)) := by
  apply stepOk_of_handler_unchanged
  intro a db' h
  unfold updateCollaboration at h
  repeat' split at h
  all_goals try (exact Except.noConfusion h)
  all_goals try
    (revert h
     lift_lets
     first
       | (intro hx1 hx2 hx3 h
          split at h <;> try (exact Except.noConfusion h))
       | (intro hx1 hx2 h
          split at h <;> try (exact Except.noConfusion h))
       | (intro hx1 h
          split at h <;> try (exact Except.noConfusion h)))
  all_goals
    injection h with hpair
    have hdb : _ = db' := congrArg Prod.snd hpair
    subst hdb
    exact ⟨rfl, rfl⟩


theorem stepOk_sendMessage (t : ℚ) (uid cid : Nat) (content : String)
    (db : DB) : StepOk db (stepOf db (sendMessage t uid cid content db)) := by
  apply stepOk_of_handler_unchanged
  intro a db' h
  unfold sendMessage at h
  repeat' split at h
  all_goals try (exact Except.noConfusion h)
  all_goals try
    (revert h
     lift_lets
     first
       | (intro hx1 hx2 hx3 h
          split at h <;> try (exact Except.noConfusion h))
       | (intro hx1 hx2 h
          split at h <;> try (exact Except.noConfusion h))
       | (intro hx1 h
          split at h <;> try (exact Except.noConfusion h)))
  all_goals
    injection h with hpair
    have hdb : _ = db' := congrArg Prod.snd hpair
    subst hdb
    exact ⟨rfl, rfl⟩


theorem stepOk_createApplication (t : ℚ) (uid cid : Nat) (pp : Option ℚ)
    (db : DB) : StepOk db (stepOf db (createApplication t uid cid pp db)) := by
  apply stepOk_of_handler_unchanged
  intro a db' h
  unfold createApplication at h
  repeat' split at h
  all_goals try (exact Except.noConfusion h)
  all_goals try
    (revert h
     lift_lets
     first
       | (intro hx1 hx2 hx3 h
          split at h <;> try (exact Except.noConfusion h))
       | (intro hx1 hx2 h
          split at h <;> try (exact Except.noConfusion h))
       | (intro hx1 h
          split at h <;> try (exact Except.noConfusion h)))
  all_goals
    injection h with hpair
    have hdb : _ = db' := congrArg Prod.snd hpair
    subst hdb
    exact ⟨rfl, rfl⟩


theorem stepOk_updateApplicationStatus (uid aid : Nat) (ns : String) (db : DB) :
    StepOk db (stepOf db (updateApplicationStatus uid aid ns db)) := by
  apply stepOk_of_handler_unchanged
  intro a db' h
  unfold updateApplicationStatus at h
  repeat' split at h
  all_goals try (exact Except.noConfusion h)
  all_goals try
    (revert h
     lift_lets
     first
       | (intro hx1 hx2 hx3 h
          split at h <;> try (exact Except.noConfusion h))
       | (intro hx1 hx2 h
          split at h <;> try (exact Except.noConfusion h))
       | (intro hx1 h
          split at h <;> try (exact Except.noConfusion h)))
  all_goals
    injection h with hpair
    have hdb : _ = db' := congrArg Prod.snd hpair
    subst hdb
    exact ⟨rfl, rfl⟩


theorem stepOk_updateCommissionSetting (t : ℚ) (uid : Nat) (rate : Option ℚ)
    (db : DB) : StepOk db (stepOf db (updateCommissionSetting t uid rate db)) := by
  apply stepOk_of_handler_unchanged
  intro a db' h
  unfold updateCommissionSetting at h
  repeat' split at h
  all_goals try (exact Except.noConfusion h)
  all_goals try
    (revert h
     lift_lets
     first
       | (intro hx1 hx2 hx3 h
          split at h <;> try (exact Except.noConfusion h))
       | (intro hx1 hx2 h
          split at h <;> try (exact Except.noConfusion h))
       | (intro hx1 h
          split at h <;> try (exact Except.noConfusion h)))
  all_goals
    injection h with hpair
    have hdb : _ = db' := congrArg Prod.snd hpair
    subst hdb
    exact ⟨rfl, rfl⟩


theorem stepOk_of_handler {α : Type} {db : DB} (r : Except ApiErr (α × DB))
    (h : ∀ a db', r = .ok (a, db') → StepOk db db') :
    StepOk db (stepOf db r) := by
  cases r with
  | error e => exact stepOk_refl db
  | ok p => exact h p.1 p.2 rfl

theorem stepOk_createEscrow (t : ℚ) (uid cid : Nat) (db : DB) :
    StepOk db (stepOf db (createEscrow t uid cid db)) := by
  apply stepOk_of_handler
  intro a db' h
  unfold createEscrow at h
  split at h
  · exact Except.noConfusion h
  next user hu =>
    split at h
    · exact Except.noConfusion h
    next collab hc =>
      split at h
      · exact Except.noConfusion h
      next hbrand =>
        split at h
        · exact Except.noConfusion h
        next hpaid =>
          split at h
          next ex hex => exact Except.noConfusion h
          next hnone =>
            injection h with hpair
            have hdb : _ = db' := congrArg Prod.snd hpair
            subst hdb
            exact stepOk_append_escrow rfl rfl ⟨rfl, rfl⟩ rfl hnone

theorem stepOk_secureEscrow (t : ℚ) (uid eid : Nat) (db : DB) :
    StepOk db (stepOf db (secureEscrow t uid eid db)) := by
  apply stepOk_of_handler
  intro a db' h
  unfold secureEscrow at h
  split at h
  · exact Except.noConfusion h
  next user hu =>
    split at h
    · exact Except.noConfusion h
    next escrow he =>
      split at h
      · exact Except.noConfusion h
      next hbrand =>
        split at h
        · exact Except.noConfusion h
        next hpend =>
          injection h with hpair
          have hdb : _ = db' := congrArg Prod.snd hpair
          subst hdb
          exact stepOk_secure_escrow _ he (not_ne_iff.mp hpend) rfl rfl
            (fun e => rfl) rfl rfl

theorem stepOk_releaseEscrow (t : ℚ) (uid eid : Nat) (db : DB) :
    StepOk db (stepOf db (releaseEscrow t uid eid db)) := by
  apply stepOk_of_handler
  intro a db' h
  unfold releaseEscrow at h
  split at h
  · exact Except.noConfusion h
  next user hu =>
    split at h
    · exact Except.noConfusion h
    next escrow he =>
      split at h
      · exact Except.noConfusion h
      next hauth =>
        split at h
        · exact Except.noConfusion h
        next hstat =>
          injection h with hpair
          have hdb : _ = db' := congrArg Prod.snd hpair
          subst hdb
          exact stepOk_updateFirst_escrow (fun e => e.escrow_id == eid)
            (fun e => { e with status := "released", released_at := some t })
            rfl rfl (fun e => rfl)
            (fun e => ⟨fun hc => by simp at hc, fun hc => by simp at hc⟩)

theorem stepOk_refundEscrow (t : ℚ) (uid eid : Nat) (db : DB) :
    StepOk db (stepOf db (refundEscrow t uid eid db)) := by
  apply stepOk_of_handler
  intro a db' h
  unfold refundEscrow at h
  split at h
  · exact Except.noConfusion h
  next user hu =>
    split at h
    · exact Except.noConfusion h
    next escrow he =>
      split at h
      · exact Except.noConfusion h
      next hauth =>
        split at h
        · exact Except.noConfusion h
        next hstat =>
          injection h with hpair
          have hdb : _ = db' := congrArg Prod.snd hpair
          subst hdb
          exact stepOk_updateFirst_escrow (fun e => e.escrow_id == eid)
            (fun e => { e with status := "refunded", refunded_at := some t })
            rfl rfl (fun e => rfl)
            (fun e => ⟨fun hc => by simp at hc, fun hc => by simp at hc⟩)

theorem stepOk_updateCollaborationStatus (t : ℚ) (uid cid : Nat) (ns : String)
    (db : DB) :
    StepOk db (stepOf db (updateCollaborationStatus t uid cid ns db)) := by
  apply stepOk_of_handler
  intro a db' h
  unfold updateCollaborationStatus at h
  split at h
  · exact Except.noConfusion h
  next user hu =>
    split at h
    · exact Except.noConfusion h
    next collab hc =>
      split at h
      · exact Except.noConfusion h
      next hbrand =>
        revert h
        lift_lets
        intro is_paid release_at h
        split at h
        · split at h
          · exact Except.noConfusion h
          next escrow hesc =>
            injection h with hpair
            have hdb : _ = db' := congrArg Prod.snd hpair
            subst hdb
            exact stepOk_updateFirst_escrow
              (fun e => e.escrow_id == escrow.escrow_id)
              (fun e => { e with
                status := "completed_pending_release",
                completed_at := some t,
                release_scheduled_at := some release_at })
              rfl rfl (fun e => rfl)
              (fun e => ⟨fun hk => by simp at hk, fun hk => by simp at hk⟩)
        · split at h
          all_goals
            injection h with hpair
            have hdb : _ = db' := congrArg Prod.snd hpair
            subst hdb
            exact stepOk_of_unchanged rfl rfl

theorem stepOk_cancelCollaboration (t : ℚ) (uid cid : Nat) (reason details : String)
    (db : DB) :
    StepOk db (stepOf db (cancelCollaboration t uid cid reason details db)) := by
  apply stepOk_of_handler
  intro a db' h
  unfold cancelCollaboration at h
  split at h
  · exact Except.noConfusion h
  next user hu =>
    split at h
    · exact Except.noConfusion h
    next collab hc =>
      revert h
      lift_lets
      intro ib ii pay db1 rty cst h
      split at h
      · exact Except.noConfusion h
      next hpart =>
        split at h
        · exact Except.noConfusion h
        next hblocked =>
          split at h
          next hbranchA =>
            injection h with hpair
            have hdb : _ = db' := congrArg Prod.snd hpair
            subst hdb
            by_cases hsec : collab.payment_status = "secured"
            · refine stepOk_updateFirst_escrow
                (fun e => e.collab_id == cid && e.status == "secured")
                (fun e => { e with status := "refunded", refunded_at := some t })
                ?_ rfl (fun e => rfl)
                (fun e => ⟨fun hk => by simp at hk, fun hk => by simp at hk⟩)
              show (if collab.payment_status = "secured" then _ else _) = _
              rw [if_pos hsec]
            · refine stepOk_of_unchanged ?_ rfl
              show (if collab.payment_status = "secured" then _ else _) = _
              rw [if_neg hsec]
          next =>
            split at h
            · injection h with hpair
              have hdb : _ = db' := congrArg Prod.snd hpair
              subst hdb
              exact stepOk_of_unchanged rfl rfl
            · exact Except.noConfusion h


theorem pairRevealed_map_mono {l : List Review} (f : Review → Review)
    (happ : ∀ x, (f x).application_id = x.application_id)
    (hrev : ∀ x, x.is_revealed = true → (f x).is_revealed = true)
    (h : l.Pairwise pairRevealedRel) : (l.map f).Pairwise pairRevealedRel := by
  rw [List.pairwise_map]
  refine h.imp ?_
  intro a b hab
  simp only [pairRevealedRel] at hab ⊢
  intro h'
  rw [happ a, happ b] at h'
  obtain ⟨h1, h2⟩ := hab h'
  exact ⟨hrev a h1, hrev b h2⟩

theorem stepOk_reviews_only {db db' : DB}
    (he : db'.escrow_payments = db.escrow_payments)
    (hr : db.reviews.Pairwise pairRevealedRel →
      db'.reviews.Pairwise pairRevealedRel) : StepOk db db' := by
  refine ⟨⟨[], by simp [he], by simp⟩, fun cid h => ?_, fun h => hr h⟩
  unfold ActiveCount at h ⊢
  rw [he]
  exact h

theorem stepOk_resolveCancellation (t : ℚ) (uid cnid : Nat) (res notes : String)
    (pa : ℚ) (db : DB) :
    StepOk db (stepOf db (resolveCancellation t uid cnid res notes pa db)) := by
  apply stepOk_of_handler
  intro a db' h
  unfold resolveCancellation at h
  split at h
  · exact Except.noConfusion h
  next user hu =>
    split at h
    · exact Except.noConfusion h
    next hadmin =>
      split at h
      · exact Except.noConfusion h
      next cancellation hc =>
        split at h
        · exact Except.noConfusion h
        next hpend =>
          injection h with hpair
          have hdb : _ = db' := congrArg Prod.snd hpair
          subst hdb
          by_cases h1 : res = "full_refund"
          · rw [if_pos h1]
            exact stepOk_updateFirst_escrow
              (fun e => e.collab_id == cancellation.collab_id &&
                (e.status == "secured" || e.status == "completed_pending_release"))
              (fun e => { e with status := "refunded", refunded_at := some t })
              rfl rfl (fun e => rfl)
              (fun e => ⟨fun hk => by simp at hk, fun hk => by simp at hk⟩)
          · rw [if_neg h1]
            by_cases h2 : res = "partial_refund"
            · rw [if_pos h2]
              split
              next escrow hesc =>
                exact stepOk_updateFirst_escrow
                  (fun e => e.escrow_id == escrow.escrow_id)
                  (fun e => { e with
                    status := "partial_refund",
                    partial_refund_amount := some pa,
                    refunded_at := some t })
                  rfl rfl (fun e => rfl)
                  (fun e => ⟨fun hk => by simp at hk, fun hk => by simp at hk⟩)
              next => exact stepOk_of_unchanged rfl rfl
            · rw [if_neg h2]
              split
              · exact stepOk_of_unchanged rfl rfl
              · exact stepOk_of_unchanged rfl rfl


theorem stepOk_resolveDispute (t : ℚ) (uid did : Nat) (res notes : String)
    (si sb : ℚ) (db : DB) :
    StepOk db (stepOf db (resolveDispute t uid did res notes si sb db)) := by
  apply stepOk_of_handler
  intro a db' h
  unfold resolveDispute at h
  split at h
  · exact Except.noConfusion h
  next user hu =>
    split at h
    · exact Except.noConfusion h
    next hadmin =>
      split at h
      · exact Except.noConfusion h
      next dispute hd =>
        split at h
        · exact Except.noConfusion h
        next hres =>
          injection h with hpair
          have hdb : _ = db' := congrArg Prod.snd hpair
          subst hdb
          by_cases h1 : res = "release_to_influencer"
          · rw [if_pos h1]
            split
            next escrow hesc =>
              exact stepOk_updateFirst_escrow
                (fun e => e.escrow_id == escrow.escrow_id)
                (fun e => { e with status := "released", released_at := some t })
                rfl rfl (fun e => rfl)
                (fun e => ⟨fun hk => by simp at hk, fun hk => by simp at hk⟩)
            next => exact stepOk_of_unchanged rfl rfl
          · rw [if_neg h1]
            by_cases h2 : res = "refund_to_brand"
            · rw [if_pos h2]
              split
              next escrow hesc =>
                exact stepOk_updateFirst_escrow
                  (fun e => e.escrow_id == escrow.escrow_id)
                  (fun e => { e with status := "refunded", refunded_at := some t })
                  rfl rfl (fun e => rfl)
                  (fun e => ⟨fun hk => by simp at hk, fun hk => by simp at hk⟩)
              next => exact stepOk_of_unchanged rfl rfl
            · rw [if_neg h2]
              by_cases h3 : res = "split"
              · rw [if_pos h3]
                split
                next escrow hesc =>
                  exact stepOk_updateFirst_escrow
                    (fun e => e.escrow_id == escrow.escrow_id)
                    (fun e => { e with
                      status := "split_resolved",
                      split_influencer := some si,
                      split_brand := some sb, resolved_at := some t })
                    rfl rfl (fun e => rfl)
                    (fun e => ⟨fun hk => by simp at hk, fun hk => by simp at hk⟩)
                next => exact stepOk_of_unchanged rfl rfl
              · rw [if_neg h3]
                exact stepOk_of_unchanged rfl rfl

theorem stepOk_createDispute (t : ℚ) (uid cid : Nat) (reason details : String)
    (db : DB) :
    StepOk db (stepOf db (createDispute t uid cid reason details db)) := by
  apply stepOk_of_handler
  intro a db' h
  unfold createDispute at h
  split at h
  · exact Except.noConfusion h
  next user hu =>
    split at h
    · exact Except.noConfusion h
    next collab hc =>
      split at h
      · exact Except.noConfusion h
      next hcpr =>
        revert h
        lift_lets
        intro is_brand is_influencer infApp disputeDoc h
        split at h
        · exact Except.noConfusion h
        next hauth =>
          split at h
          next od hod => exact Except.noConfusion h
          next hnone =>
            injection h with hpair
            have hdb : _ = db' := congrArg Prod.snd hpair
            subst hdb
            exact stepOk_updateFirst_escrow
              (fun e => e.collab_id == cid && e.status == "completed_pending_release")
              (fun e => { e with status := "disputed", disputed_at := some t })
              rfl rfl (fun e => rfl)
              (fun e => ⟨fun hk => by simp at hk, fun hk => by simp at hk⟩)


theorem stepOk_submitReview (t : ℚ) (uid aid : Nat) (rating : ℚ)
    (comment : Option String) (db : DB) :
    StepOk db (stepOf db (submitReview t uid aid rating comment db)) := by
  apply stepOk_of_handler
  intro a db' h
  unfold submitReview at h
  split at h
  · exact Except.noConfusion h
  next user hu =>
    split at h
    · exact Except.noConfusion h
    next hrat =>
      split at h
      · exact Except.noConfusion h
      next application happ =>
        split at h
        · exact Except.noConfusion h
        next hacc =>
          split at h
          · exact Except.noConfusion h
          next collab hcol =>
            revert h
            lift_lets
            intro is_paid is_brand is_influencer reviewDoc db1 db2 h
            split at h
            · exact Except.noConfusion h
            next hpay =>
              split at h
              · exact Except.noConfusion h
              next hdone =>
                split at h
                · exact Except.noConfusion h
                next hauth =>
                  split at h
                  next dup hdup => exact Except.noConfusion h
                  next hdup =>
                    split at h
                    next other hother =>
                      injection h with hpair
                      have hdb : _ = db' := congrArg Prod.snd hpair
                      subst hdb
                      refine stepOk_reviews_only ?_ ?_
                      · rw [updateInfluencerRating_escrows]
                      · intro hp
                        rw [updateInfluencerRating_reviews]
                        exact pairRevealed_insert_and_reveal rfl hp
                    next hother =>
                      injection h with hpair
                      have hdb : _ = db' := congrArg Prod.snd hpair
                      subst hdb
                      refine stepOk_reviews_only rfl ?_
                      intro hp
                      refine pairRevealed_insert_fresh ?_ hp
                      intro x hx happx
                      have happx' : x.application_id = aid := happx
                      have h1 := List.find?_eq_none.mp hdup x hx
                      have h2 := List.find?_eq_none.mp hother x
                        (List.mem_append_left _ hx)
                      simp only [Bool.and_eq_true, beq_iff_eq, bne_iff_ne, ne_eq,
                        not_and, Bool.not_eq_true] at h1 h2
                      by_cases hrv : x.reviewer_user_id = user.user_id
                      · exact h1 happx' hrv
                      · exact absurd happx' (fun hq => (h2 hq) hrv)

theorem stepOk_readUserReviews (t : ℚ) (db : DB) :
    StepOk db (stepOf db (readUserReviews t db)) := by
  show StepOk db (autoRevealTimedOutReviews t db)
  unfold autoRevealTimedOutReviews
  lift_lets
  intro cutoff unrevealed ids db1 affected
  split
  · refine stepOk_reviews_only ?_ ?_
    · rw [foldl_rating_escrows]
    · intro hp
      rw [foldl_rating_reviews]
      refine pairRevealed_map_mono _ ?_ ?_ hp
      · intro x
        dsimp only
        split <;> rfl
      · intro x hxr
        dsimp only
        split
        · rfl
        · exact hxr
  · exact stepOk_refl db


/-- Every request preserves the step invariants. -/
theorem step_ok (op : Op) (db : DB) : StepOk db (step op db) := by
  cases op with
  | register t ut ia => exact stepOk_registerUser t ut ia db
  | infProfile uid un => exact stepOk_createInfluencerProfile uid un db
  | newCollab t uid data => exact stepOk_createCollaboration t uid data db
  | view cid => exact stepOk_viewCollaboration cid db
  | putCollab uid cid body => exact stepOk_updateCollaboration uid cid body db
  | patchStatus t uid cid ns => exact stepOk_updateCollaborationStatus t uid cid ns db
  | cancel t uid cid r d => exact stepOk_cancelCollaboration t uid cid r d db
  | adminCancellation t uid cnid r n p =>
    exact stepOk_resolveCancellation t uid cnid r n p db
  | newDispute t uid cid r d => exact stepOk_createDispute t uid cid r d db
  | adminDispute t uid did r n si sb =>
    exact stepOk_resolveDispute t uid did r n si sb db
  | newEscrow t uid cid => exact stepOk_createEscrow t uid cid db
  | secure t uid eid => exact stepOk_secureEscrow t uid eid db
  | release t uid eid => exact stepOk_releaseEscrow t uid eid db
  | refund t uid eid => exact stepOk_refundEscrow t uid eid db
  | message t uid cid c => exact stepOk_sendMessage t uid cid c db
  | newApplication t uid cid p => exact stepOk_createApplication t uid cid p db
  | patchApplication uid aid ns => exact stepOk_updateApplicationStatus uid aid ns db
  | review t uid aid r c => exact stepOk_submitReview t uid aid r c db
  | readReviews t => exact stepOk_readUserReviews t db
  | putRate t uid r => exact stepOk_updateCommissionSetting t uid r db

/-- The state invariant: every escrow satisfies the rounding identities,
every collaboration has at most one active escrow, and reviews on the
same application are revealed in pairs. -/
def Inv (db : DB) : Prop :=
  (∀ mv ∈ db.escrow_payments.map moneyView, MoneyOKv mv) ∧
  (∀ cid, ActiveCount cid db ≤ 1) ∧ PairRevealed db

theorem inv_init : Inv DB.init := by
  refine ⟨by intro mv hmv; exact absurd hmv (by simp [DB.init]), ?_, ?_⟩
  · intro cid
    show (List.filter _ []).length ≤ 1
    simp
  · exact List.Pairwise.nil

theorem inv_step (op : Op) {db : DB} (h : Inv db) : Inv (step op db) := by
  obtain ⟨hm, hc, hp⟩ := h
  obtain ⟨⟨tail, hmap, htail⟩, hcnt, hpr⟩ := step_ok op db
  refine ⟨?_, fun cid => hcnt cid (hc cid), hpr hp⟩
  intro mv hmv
  rw [hmap] at hmv
  rcases List.mem_append.mp hmv with h1 | h2
  · exact hm mv h1
  · exact htail mv h2

/-- The invariant holds in every reachable state. -/
theorem inv_reachable {db : DB} (h : Reachable db) : Inv db := by
  induction h with
  | init => exact inv_init
  | next h op ih => exact inv_step op ih


/-! ## C1: the escrow monetary identity is established at creation and
never changed afterwards -/

def traceC1w : List Op :=
  [.register 0 "brand" false,
   .newCollab 0 0 { collaboration_type := some "paid", budget_min := some 1000 },
   .newEscrow 0 0 1]

/-- C1.  In every reachable database state, every escrow record satisfies
`platform_commission = round2(total_amount * commission_rate / 100)` and
`influencer_payout = round2(total_amount - platform_commission)`, hence
`platform_commission + influencer_payout` equals `total_amount` to within
0.01; moreover no request ever changes the monetary fields
(id, total, commission, payout, rate) of an existing escrow row: every
step maps the monetary view of the escrow list to itself plus freshly
appended rows. -/
theorem C1_escrow_money_invariant {db : DB} (h : Reachable db) :
    (∀ e ∈ db.escrow_payments,
      e.platform_commission = jsRound2 (e.total_amount * e.commission_rate / 100) ∧
      e.influencer_payout = jsRound2 (e.total_amount - e.platform_commission) ∧
      |e.platform_commission + e.influencer_payout - e.total_amount| ≤ 1/100) ∧
    (∀ op, ∃ tail, (step op db).escrow_payments.map moneyView =
      db.escrow_payments.map moneyView ++ tail ∧ ∀ mv ∈ tail, MoneyOKv mv) := by
  obtain ⟨hm, _, _⟩ := inv_reachable h
  constructor
  · intro e he
    have hmv := hm (moneyView e) (List.mem_map_of_mem moneyView he)
    obtain ⟨h1, h2⟩ := hmv
    refine ⟨h1, h2, ?_⟩
    rw [h2]
    exact commission_add_net_close e.total_amount e.platform_commission
  · intro op
    exact (step_ok op db).1

theorem C1_escrow_money_invariant_witness :
    (∀ e ∈ (execOps traceC1w DB.init).escrow_payments,
      e.platform_commission = jsRound2 (e.total_amount * e.commission_rate / 100) ∧
      e.influencer_payout = jsRound2 (e.total_amount - e.platform_commission) ∧
      |e.platform_commission + e.influencer_payout - e.total_amount| ≤ 1/100) ∧
    (∀ op, ∃ tail,
      (step op (execOps traceC1w DB.init)).escrow_payments.map moneyView =
      (execOps traceC1w DB.init).escrow_payments.map moneyView ++ tail ∧
      ∀ mv ∈ tail, MoneyOKv mv) :=
  C1_escrow_money_invariant (Reachable.execOps Reachable.init traceC1w)


/-! ## C3: at most one active escrow per collaboration -/

/-- The statuses the claim calls non-terminal. -/
def nonTerminalStatuses : List String :=
  ["pending", "secured", "completed_pending_release", "disputed"]

def trace3 : List Op :=
  [.register 0 "brand" false,
   .newCollab 0 0 { collaboration_type := some "paid", budget_min := some 1000 },
   .newEscrow 0 0 1,
   .secure 0 0 2,
   .patchStatus 0 0 1 "completed",
   .newEscrow 0 0 1]

/-- C3 counterexample.  A reachable state holds two escrows for the same
collaboration, one `completed_pending_release` and one `pending` - both in
the claim's non-terminal list: the duplicate check of `createEscrow` only
looks for `pending`/`secured` rows, so once the first escrow moves to the
confirmation window a second escrow can be created. -/
theorem C3_counterexample :
    Reachable (execOps trace3 DB.init) ∧
    (execOps trace3 DB.init).escrow_payments.map
      (fun e => (e.collab_id, e.status)) =
      [(1, "completed_pending_release"), (1, "pending")] ∧
    ((execOps trace3 DB.init).escrow_payments.filter (fun e =>
      e.collab_id == 1 && nonTerminalStatuses.contains e.status)).length = 2 :=
  ⟨Reachable.execOps Reachable.init trace3, by with_unfolding_all rfl,
   by with_unfolding_all rfl⟩

def traceC3w : List Op :=
  [.register 0 "brand" false,
   .newCollab 0 0 { collaboration_type := some "paid", budget_min := some 1000 },
   .newEscrow 0 0 1,
   .secure 0 0 2]

/-- C3 (amended).  In every reachable state each collaboration has at most
one escrow in status `pending` or `secured`, and - past the
authentication, ownership and paid-type guards - `createEscrow` returns
the conflict error exactly when such a `pending`/`secured` escrow already
exists for the collaboration.  Escrows in `completed_pending_release` or
`disputed` do not block a second escrow (see the counterexample). -/
theorem C3_active_escrow (t : ℚ) (uid cid : Nat) {db : DB} (h : Reachable db) :
    ActiveCount cid db ≤ 1 ∧
    (∀ user, findUser db uid = some user →
     ∀ collab, db.collaborations.find? (fun c => c.collab_id == cid) = some collab →
     collab.brand_user_id = user.user_id →
     jsOrStr collab.collaboration_type "paid" = "paid" →
     (createEscrow t uid cid db =
        .error (.badRequest "Escrow already exists for this collaboration") ↔
      db.escrow_payments.find? (fun e => e.collab_id == cid &&
        (e.status == "pending" || e.status == "secured")) ≠ none)) := by
  refine ⟨(inv_reachable h).2.1 cid, ?_⟩
  intro user hu collab hc hbrand hpaid
  unfold createEscrow
  rw [hu, hc]
  simp only []
  rw [if_neg (not_ne_iff.mpr hbrand), if_neg (not_ne_iff.mpr hpaid)]
  cases hfind : db.escrow_payments.find? (fun e => e.collab_id == cid &&
      (e.status == "pending" || e.status == "secured")) with
  | some ex => simp
  | none => simp

theorem C3_active_escrow_witness :
    ActiveCount 1 (execOps traceC3w DB.init) ≤ 1 ∧
    (∀ user, findUser (execOps traceC3w DB.init) 0 = some user →
     ∀ collab, (execOps traceC3w DB.init).collaborations.find?
        (fun c => c.collab_id == 1) = some collab →
     collab.brand_user_id = user.user_id →
     jsOrStr collab.collaboration_type "paid" = "paid" →
     (createEscrow 9 0 1 (execOps traceC3w DB.init) =
        .error (.badRequest "Escrow already exists for this collaboration") ↔
      (execOps traceC3w DB.init).escrow_payments.find? (fun e => e.collab_id == 1 &&
        (e.status == "pending" || e.status == "secured")) ≠ none)) :=
  C3_active_escrow 9 0 1 (Reachable.execOps Reachable.init traceC3w)


/-! ## C8: reviews are created unrevealed and revealed in pairs -/

theorem pairRevealedRel_symm : Symmetric pairRevealedRel := by
  intro a b hab hba
  obtain ⟨x, y⟩ := hab hba.symm
  exact ⟨y, x⟩

/-- The reviews `updateInfluencerRating` averages over. -/
def revealedBrandReviews (u : Nat) (db : DB) : List Review :=
  db.reviews.filter (fun r => r.reviewed_user_id == u &&
    r.reviewer_type == "brand" && r.is_revealed)

theorem updateInfluencerRating_profiles (u : Nat) (db : DB)
    (h : (revealedBrandReviews u db).length ≠ 0) :
    (updateInfluencerRating u db).influencer_profiles =
      updateFirst (fun p => p.user_id == u)
        (fun p => { p with
          avg_rating := some (jsRound1
            (((revealedBrandReviews u db).map (fun rv => rv.rating)).sum /
              ((revealedBrandReviews u db).length : ℚ))),
          review_count := some (revealedBrandReviews u db).length })
        db.influencer_profiles := by
  unfold updateInfluencerRating
  dsimp only
  split
  · rfl
  · next hc => exact absurd h hc

theorem revealedBrandReviews_updateRating (u v : Nat) (db : DB) :
    revealedBrandReviews u (updateInfluencerRating v db) =
      revealedBrandReviews u db := by
  unfold revealedBrandReviews
  rw [updateInfluencerRating_reviews]


/-- C8.  In every reachable state two reviews on the same application are
never exactly-one revealed (both false or both true); every review
document `submitReview` creates carries `is_revealed = false`; and when a
review for the application already exists, the successful second
submission reveals every review of that application and rewrites the
influencer profile with
`avg_rating = round1(mean of revealed brand reviews)` and their count. -/
theorem C8_review_reveal_pairing (t : ℚ) (uid aid : Nat) (rating : ℚ)
    (c : Option String) {db : DB} (h : Reachable db) :
    (∀ r1 ∈ db.reviews, ∀ r2 ∈ db.reviews,
      r1.application_id = r2.application_id →
      ((r1.is_revealed = false ∧ r2.is_revealed = false) ∨
       (r1.is_revealed = true ∧ r2.is_revealed = true))) ∧
    (∀ r db', submitReview t uid aid rating c db = .ok (r, db') →
      r.is_revealed = false ∧
      (∀ x ∈ db.reviews, x.application_id = aid →
        (∀ y ∈ db'.reviews, y.application_id = aid → y.is_revealed = true) ∧
        (∀ app, db.applications.find?
            (fun a => a.application_id == aid) = some app →
          (revealedBrandReviews app.influencer_user_id db').length ≠ 0 →
          db'.influencer_profiles =
            updateFirst (fun p => p.user_id == app.influencer_user_id)
              (fun p => { p with
                avg_rating := some (jsRound1
                  (((revealedBrandReviews app.influencer_user_id db').map
                      (fun rv => rv.rating)).sum /
                    ((revealedBrandReviews app.influencer_user_id db').length : ℚ))),
                review_count := some
                  (revealedBrandReviews app.influencer_user_id db').length })
              db.influencer_profiles))) := by
  constructor
  · intro r1 h1 r2 h2 happ
    by_cases heq : r1 = r2
    · subst heq
      cases hrev : r1.is_revealed
      · exact Or.inl ⟨rfl, rfl⟩
      · exact Or.inr ⟨rfl, rfl⟩
    · have hpr : db.reviews.Pairwise pairRevealedRel := (inv_reachable h).2.2
      exact Or.inr (List.Pairwise.forall pairRevealedRel_symm hpr h1 h2 heq happ)
  · intro r db' hok
    unfold submitReview at hok
    split at hok
    · exact Except.noConfusion hok
    next user hu =>
      split at hok
      · exact Except.noConfusion hok
      next hrat =>
        split at hok
        · exact Except.noConfusion hok
        next application happ =>
          split at hok
          · exact Except.noConfusion hok
          next hacc =>
            split at hok
            · exact Except.noConfusion hok
            next collab hcol =>
              revert hok
              lift_lets
              intro is_paid is_brand is_influencer reviewDoc db1 db2 hok
              split at hok
              · exact Except.noConfusion hok
              next hpay =>
                split at hok
                · exact Except.noConfusion hok
                next hdone =>
                  split at hok
                  · exact Except.noConfusion hok
                  next hauth =>
                    split at hok
                    next dup hdup => exact Except.noConfusion hok
                    next hdup =>
                      split at hok
                      next other hother =>
                        injection hok with hpair
                        have hr : reviewDoc = r := congrArg Prod.fst hpair
                        have hdb : _ = db' := congrArg Prod.snd hpair
                        subst hdb
                        have hr0 : reviewDoc.is_revealed = false := rfl
                        refine ⟨hr ▸ hr0, ?_⟩
                        intro x hx hxa
                        constructor
                        · intro y hy hya
                          rw [updateInfluencerRating_reviews] at hy
                          obtain ⟨z, hz, hfz⟩ := List.mem_map.mp hy
                          by_cases hza : z.application_id = aid
                          · rw [← hfz]
                            simp [hza]
                          · rw [← hfz] at hya
                            simp [hza] at hya
                        · intro app happfind hlen
                          have happeq : app = application := by
                            rw [happfind] at happ
                            exact Option.some.inj happ
                          subst happeq
                          rw [revealedBrandReviews_updateRating] at hlen ⊢
                          exact updateInfluencerRating_profiles _ db2 hlen
                      next hother =>
                        injection hok with hpair
                        have hr : reviewDoc = r := congrArg Prod.fst hpair
                        have hdb : _ = db' := congrArg Prod.snd hpair
                        subst hdb
                        have hr0 : reviewDoc.is_revealed = false := rfl
                        refine ⟨hr ▸ hr0, ?_⟩
                        intro x hx hxa
                        have h1 := List.find?_eq_none.mp hdup x hx
                        have h2 := List.find?_eq_none.mp hother x
                          (List.mem_append_left _ hx)
                        simp only [Bool.and_eq_true, beq_iff_eq, bne_iff_ne, ne_eq,
                          not_and, Bool.not_eq_true] at h1 h2
                        by_cases hrv : x.reviewer_user_id = user.user_id
                        · exact absurd (h1 hxa) (fun hq => hq hrv)
                        · exact absurd hxa (fun hq => (h2 hq) hrv)


/-- Brand and influencer users, an accepted application on a completed
barter collaboration, and the brand's (unrevealed) review already
submitted. -/
def traceC8 : List Op :=
  [.register 0 "brand" false,
   .register 0 "influencer" false,
   .infProfile 1 "inf",
   .newCollab 0 0 { collaboration_type := some "barter" },
   .newApplication 0 1 2 none,
   .patchApplication 0 3 "accepted",
   .patchStatus 0 0 2 "completed",
   .review 0 0 3 5 none]

theorem C8_review_reveal_pairing_witness :
    (∀ r1 ∈ (execOps traceC8 DB.init).reviews,
     ∀ r2 ∈ (execOps traceC8 DB.init).reviews,
      r1.application_id = r2.application_id →
      ((r1.is_revealed = false ∧ r2.is_revealed = false) ∨
       (r1.is_revealed = true ∧ r2.is_revealed = true))) ∧
    (∀ r db', submitReview 1 1 3 4 none (execOps traceC8 DB.init) =
        .ok (r, db') →
      r.is_revealed = false ∧
      (∀ x ∈ (execOps traceC8 DB.init).reviews, x.application_id = 3 →
        (∀ y ∈ db'.reviews, y.application_id = 3 → y.is_revealed = true) ∧
        (∀ app, (execOps traceC8 DB.init).applications.find?
            (fun a => a.application_id == 3) = some app →
          (revealedBrandReviews app.influencer_user_id db').length ≠ 0 →
          db'.influencer_profiles =
            updateFirst (fun p => p.user_id == app.influencer_user_id)
              (fun p => { p with
                avg_rating := some (jsRound1
                  (((revealedBrandReviews app.influencer_user_id db').map
                      (fun rv => rv.rating)).sum /
                    ((revealedBrandReviews app.influencer_user_id db').length : ℚ))),
                review_count := some
                  (revealedBrandReviews app.influencer_user_id db').length })
              (execOps traceC8 DB.init).influencer_profiles))) :=
  C8_review_reveal_pairing 1 1 3 4 none (Reachable.execOps Reachable.init traceC8)

end Collab2
